import Mathlib

/-!
Verification development for the DirectX maze demo
(A2-Water-Land-Lights-Textures.cpp).

The algorithmic core of the program is embedded shallowly:

* 4x4 matrices and 3-vectors over the rationals model the XMFLOAT4X4 and
  XMVECTOR values of DirectXMath (the program only ever feeds real numbers
  through them; the claims under study are about control flow and state
  mutation, not floating-point rounding);
* external DirectXMath collision routines (XMVector3Normalize,
  BoundingBox::Intersects, TriangleTests::Intersects) are opaque parameters
  of the model, collected in the GeomOps structure - they belong to the
  platform library, not to this repository;
* the repository code itself (ray setup, the per-item loop of
  ShapesApp::MazeCollision, the dirty-counter updaters, the frame-resource
  ring, AnimateMaterials, UpdateWaves) is translated line by line into
  executable Lean functions below.
-/

/-- Rational 3-vector, modelling the (x, y, z) part of an XMVECTOR. -/
structure Float3 where
  x : ℚ
  y : ℚ
  z : ℚ
deriving DecidableEq

/-- Rational 4x4 matrix in row-major layout, modelling XMFLOAT4X4 / XMMATRIX.
DirectXMath uses the row-vector convention: a vector is multiplied on the
left of the matrix, and translations sit in row 3. -/
structure Mat4 where
  m00 : ℚ
  m01 : ℚ
  m02 : ℚ
  m03 : ℚ
  m10 : ℚ
  m11 : ℚ
  m12 : ℚ
  m13 : ℚ
  m20 : ℚ
  m21 : ℚ
  m22 : ℚ
  m23 : ℚ
  m30 : ℚ
  m31 : ℚ
  m32 : ℚ
  m33 : ℚ
deriving DecidableEq

/-- The identity matrix, modelling MathHelper::Identity4x4. -/
def id4 : Mat4 :=
  ⟨1, 0, 0, 0,
   0, 1, 0, 0,
   0, 0, 1, 0,
   0, 0, 0, 1⟩

/-- Matrix product in the DirectXMath row-vector convention, modelling
XMMatrixMultiply: row i of the product is row i of A times B. -/
def xmMatrixMultiply (a b : Mat4) : Mat4 :=
  ⟨a.m00 * b.m00 + a.m01 * b.m10 + a.m02 * b.m20 + a.m03 * b.m30,
   a.m00 * b.m01 + a.m01 * b.m11 + a.m02 * b.m21 + a.m03 * b.m31,
   a.m00 * b.m02 + a.m01 * b.m12 + a.m02 * b.m22 + a.m03 * b.m32,
   a.m00 * b.m03 + a.m01 * b.m13 + a.m02 * b.m23 + a.m03 * b.m33,
   a.m10 * b.m00 + a.m11 * b.m10 + a.m12 * b.m20 + a.m13 * b.m30,
   a.m10 * b.m01 + a.m11 * b.m11 + a.m12 * b.m21 + a.m13 * b.m31,
   a.m10 * b.m02 + a.m11 * b.m12 + a.m12 * b.m22 + a.m13 * b.m32,
   a.m10 * b.m03 + a.m11 * b.m13 + a.m12 * b.m23 + a.m13 * b.m33,
   a.m20 * b.m00 + a.m21 * b.m10 + a.m22 * b.m20 + a.m23 * b.m30,
   a.m20 * b.m01 + a.m21 * b.m11 + a.m22 * b.m21 + a.m23 * b.m31,
   a.m20 * b.m02 + a.m21 * b.m12 + a.m22 * b.m22 + a.m23 * b.m32,
   a.m20 * b.m03 + a.m21 * b.m13 + a.m22 * b.m23 + a.m23 * b.m33,
   a.m30 * b.m00 + a.m31 * b.m10 + a.m32 * b.m20 + a.m33 * b.m30,
   a.m30 * b.m01 + a.m31 * b.m11 + a.m32 * b.m21 + a.m33 * b.m31,
   a.m30 * b.m02 + a.m31 * b.m12 + a.m32 * b.m22 + a.m33 * b.m32,
   a.m30 * b.m03 + a.m31 * b.m13 + a.m32 * b.m23 + a.m33 * b.m33⟩

/-- Determinant of a 4x4 matrix (cofactor expansion along column 0,
matching the classical closed form used below for the inverse). -/
def det4 (m : Mat4) : ℚ :=
  m.m00 * (m.m11 * m.m22 * m.m33 - m.m11 * m.m23 * m.m32 - m.m21 * m.m12 * m.m33
            + m.m21 * m.m13 * m.m32 + m.m31 * m.m12 * m.m23 - m.m31 * m.m13 * m.m22)
  + m.m01 * (-(m.m10 * m.m22 * m.m33) + m.m10 * m.m23 * m.m32 + m.m20 * m.m12 * m.m33
            - m.m20 * m.m13 * m.m32 - m.m30 * m.m12 * m.m23 + m.m30 * m.m13 * m.m22)
  + m.m02 * (m.m10 * m.m21 * m.m33 - m.m10 * m.m23 * m.m31 - m.m20 * m.m11 * m.m33
            + m.m20 * m.m13 * m.m31 + m.m30 * m.m11 * m.m23 - m.m30 * m.m13 * m.m21)
  + m.m03 * (-(m.m10 * m.m21 * m.m32) + m.m10 * m.m22 * m.m31 + m.m20 * m.m11 * m.m32
            - m.m20 * m.m12 * m.m31 - m.m30 * m.m11 * m.m22 + m.m30 * m.m12 * m.m21)

/-- Closed-form inverse of a 4x4 matrix via the adjugate, modelling
XMMatrixInverse (which returns the true inverse for the invertible
matrices this program feeds it). On a singular matrix the rational
division by zero yields the zero matrix; the program never does that. -/
def xmMatrixInverse (m : Mat4) : Mat4 :=
  let i00 := m.m11 * m.m22 * m.m33 - m.m11 * m.m23 * m.m32 - m.m21 * m.m12 * m.m33
            + m.m21 * m.m13 * m.m32 + m.m31 * m.m12 * m.m23 - m.m31 * m.m13 * m.m22
  let i10 := -(m.m10 * m.m22 * m.m33) + m.m10 * m.m23 * m.m32 + m.m20 * m.m12 * m.m33
            - m.m20 * m.m13 * m.m32 - m.m30 * m.m12 * m.m23 + m.m30 * m.m13 * m.m22
  let i20 := m.m10 * m.m21 * m.m33 - m.m10 * m.m23 * m.m31 - m.m20 * m.m11 * m.m33
            + m.m20 * m.m13 * m.m31 + m.m30 * m.m11 * m.m23 - m.m30 * m.m13 * m.m21
  let i30 := -(m.m10 * m.m21 * m.m32) + m.m10 * m.m22 * m.m31 + m.m20 * m.m11 * m.m32
            - m.m20 * m.m12 * m.m31 - m.m30 * m.m11 * m.m22 + m.m30 * m.m12 * m.m21
  let i01 := -(m.m01 * m.m22 * m.m33) + m.m01 * m.m23 * m.m32 + m.m21 * m.m02 * m.m33
            - m.m21 * m.m03 * m.m32 - m.m31 * m.m02 * m.m23 + m.m31 * m.m03 * m.m22
  let i11 := m.m00 * m.m22 * m.m33 - m.m00 * m.m23 * m.m32 - m.m20 * m.m02 * m.m33
            + m.m20 * m.m03 * m.m32 + m.m30 * m.m02 * m.m23 - m.m30 * m.m03 * m.m22
  let i21 := -(m.m00 * m.m21 * m.m33) + m.m00 * m.m23 * m.m31 + m.m20 * m.m01 * m.m33
            - m.m20 * m.m03 * m.m31 - m.m30 * m.m01 * m.m23 + m.m30 * m.m03 * m.m21
  let i31 := m.m00 * m.m21 * m.m32 - m.m00 * m.m22 * m.m31 - m.m20 * m.m01 * m.m32
            + m.m20 * m.m02 * m.m31 + m.m30 * m.m01 * m.m22 - m.m30 * m.m02 * m.m21
  let i02 := m.m01 * m.m12 * m.m33 - m.m01 * m.m13 * m.m32 - m.m11 * m.m02 * m.m33
            + m.m11 * m.m03 * m.m32 + m.m31 * m.m02 * m.m13 - m.m31 * m.m03 * m.m12
  let i12 := -(m.m00 * m.m12 * m.m33) + m.m00 * m.m13 * m.m32 + m.m10 * m.m02 * m.m33
            - m.m10 * m.m03 * m.m32 - m.m30 * m.m02 * m.m13 + m.m30 * m.m03 * m.m12
  let i22 := m.m00 * m.m11 * m.m33 - m.m00 * m.m13 * m.m31 - m.m10 * m.m01 * m.m33
            + m.m10 * m.m03 * m.m31 + m.m30 * m.m01 * m.m13 - m.m30 * m.m03 * m.m11
  let i32 := -(m.m00 * m.m11 * m.m32) + m.m00 * m.m12 * m.m31 + m.m10 * m.m01 * m.m32
            - m.m10 * m.m02 * m.m31 - m.m30 * m.m01 * m.m12 + m.m30 * m.m02 * m.m11
  let i03 := -(m.m01 * m.m12 * m.m23) + m.m01 * m.m13 * m.m22 + m.m11 * m.m02 * m.m23
            - m.m11 * m.m03 * m.m22 - m.m21 * m.m02 * m.m13 + m.m21 * m.m03 * m.m12
  let i13 := m.m00 * m.m12 * m.m23 - m.m00 * m.m13 * m.m22 - m.m10 * m.m02 * m.m23
            + m.m10 * m.m03 * m.m22 + m.m20 * m.m02 * m.m13 - m.m20 * m.m03 * m.m12
  let i23 := -(m.m00 * m.m11 * m.m23) + m.m00 * m.m13 * m.m21 + m.m10 * m.m01 * m.m23
            - m.m10 * m.m03 * m.m21 - m.m20 * m.m01 * m.m13 + m.m20 * m.m03 * m.m11
  let i33 := m.m00 * m.m11 * m.m22 - m.m00 * m.m12 * m.m21 - m.m10 * m.m01 * m.m22
            + m.m10 * m.m02 * m.m21 + m.m20 * m.m01 * m.m12 - m.m20 * m.m02 * m.m11
  let d := m.m00 * i00 + m.m01 * i10 + m.m02 * i20 + m.m03 * i30
  ⟨i00 / d, i01 / d, i02 / d, i03 / d,
   i10 / d, i11 / d, i12 / d, i13 / d,
   i20 / d, i21 / d, i22 / d, i23 / d,
   i30 / d, i31 / d, i32 / d, i33 / d⟩

/-- Transform of a point by a matrix in the row-vector convention with the
homogeneous divide, modelling XMVector3TransformCoord: the vector
(x, y, z, 1) is multiplied on the left of the matrix and the result is
divided by its w component. -/
def xmVector3TransformCoord (v : Float3) (m : Mat4) : Float3 :=
  let w := v.x * m.m03 + v.y * m.m13 + v.z * m.m23 + m.m33
  ⟨(v.x * m.m00 + v.y * m.m10 + v.z * m.m20 + m.m30) / w,
   (v.x * m.m01 + v.y * m.m11 + v.z * m.m21 + m.m31) / w,
   (v.x * m.m02 + v.y * m.m12 + v.z * m.m22 + m.m32) / w⟩

/-- Transform of a direction by a matrix in the row-vector convention,
modelling XMVector3TransformNormal: the vector (x, y, z, 0) is multiplied
on the left of the matrix, so row 3 (the translation) is ignored. -/
def xmVector3TransformNormal (v : Float3) (m : Mat4) : Float3 :=
  ⟨v.x * m.m00 + v.y * m.m10 + v.z * m.m20,
   v.x * m.m01 + v.y * m.m11 + v.z * m.m21,
   v.x * m.m02 + v.y * m.m12 + v.z * m.m22⟩

/-- Transpose of a 4x4 matrix, modelling XMMatrixTranspose. -/
def xmMatrixTranspose (m : Mat4) : Mat4 :=
  ⟨m.m00, m.m10, m.m20, m.m30,
   m.m01, m.m11, m.m21, m.m31,
   m.m02, m.m12, m.m22, m.m32,
   m.m03, m.m13, m.m23, m.m33⟩

/-- A sample invertible matrix used to validate the closed-form inverse. -/
def sampleMat : Mat4 :=
  ⟨2, 0, 0, 0,
   1, 3, 0, 0,
   0, 1, 1, 0,
   5, -2, 7, 1⟩

example : xmMatrixMultiply (xmMatrixInverse sampleMat) sampleMat = id4 := by
  norm_num [xmMatrixMultiply, xmMatrixInverse, sampleMat, id4]

example : xmMatrixMultiply sampleMat (xmMatrixInverse sampleMat) = id4 := by
  norm_num [xmMatrixMultiply, xmMatrixInverse, sampleMat, id4]

example : xmMatrixInverse id4 = id4 := by
  norm_num [xmMatrixInverse, id4]

/-! ## Data model: render items and the external collision library -/

/-- Ring depth: const int gNumFrameResources = 3 (source line 31). -/
def gNumFrameResources : ℕ := 3

/-- Local-space axis-aligned bounding box, modelling DirectX BoundingBox
(center and extents). Its fields are only passed through to the external
intersection routine. -/
structure BoundingBoxQ where
  center : Float3
  extents : Float3
deriving DecidableEq

/-- One drawable instance, modelling struct RenderItem (source lines 35-69).
The id field models the identity of the heap allocation owning the item
(each std::make_unique call yields a distinct pointer); geoVertices and
geoIndices model the CPU-side shadow copies VertexBufferCPU /
IndexBufferCPU of the referenced MeshGeometry, of which the picker only
reads the vertex positions. -/
structure RenderItem where
  id : ℕ
  World : Mat4
  TexTransform : Mat4
  NumFramesDirty : ℕ
  ObjCBIndex : ℕ
  geoVertices : List Float3
  geoIndices : List ℕ
  IndexCount : ℕ
  StartIndexLocation : ℕ
  BaseVertexLocation : ℤ
  Bounds : BoundingBoxQ
  Visible : Bool
deriving DecidableEq

/-- The external DirectXMath collision routines used by MazeCollision.
They are library code (Windows SDK), not part of this repository, so the
model takes them as opaque parameters:

* xmVector3Normalize returns the unit vector along its argument;
* boundsIntersects models BoundingBox::Intersects(origin, dir, dist) -
  some d when the ray hits the box at parameter d, none on a miss (in
  which case the C++ routine writes 0 into dist);
* triangleIntersects models TriangleTests::Intersects(origin, dir,
  v0, v1, v2, t) - some t on a hit, none on a miss. -/
structure GeomOps where
  xmVector3Normalize : Float3 → Float3
  boundsIntersects : BoundingBoxQ → Float3 → Float3 → Option ℚ
  triangleIntersects : Float3 → Float3 → Float3 → Float3 → Float3 → Option ℚ

/-! ## The picker: ShapesApp::MazeCollision (source lines 2505-2618)

The function body is a loop over the Opaque render layer mutating four
pieces of state: the two ray variables (which the source transforms in
place, so each iteration starts from the ray left behind by the previous
one), the highlight item mPickedRitem, and the flag
bStopForwardMovement. The loop is embedded as a fold over that state. -/

/-- Mutable state of the MazeCollision loop: rayOrigin and rayDir are the
local variables of the function (mutated in place each iteration), picked
is the pointee of mPickedRitem, stop is bStopForwardMovement. -/
structure PickLoop where
  rayOrigin : Float3
  rayDir : Float3
  picked : RenderItem
  stop : Bool
deriving DecidableEq

/-- View-space pick ray origin: XMVectorSet(0, 0, 0, 1) (line 2517). -/
def viewRayOrigin : Float3 := ⟨0, 0, 0⟩

/-- View-space pick ray direction (vx, vy, 1, 0) with
vx = (+2 sx / clientWidth - 1) / P(0,0) and
vy = (-2 sy / clientHeight + 1) / P(1,1) (lines 2513-2518). -/
def viewRayDir (proj : Mat4) (clientWidth clientHeight : ℚ) (sx sy : ℤ) : Float3 :=
  ⟨(2 * (sx : ℚ) / clientWidth - 1) / proj.m00,
   (-2 * (sy : ℚ) / clientHeight + 1) / proj.m11,
   1⟩

/-- Combined view-to-local transform of one item:
toLocal = XMMatrixMultiply(invView, invWorld) (lines 2540-2546). -/
def toLocalOf (invView : Mat4) (ri : RenderItem) : Mat4 :=
  xmMatrixMultiply invView (xmMatrixInverse ri.World)

/-- Position of the vertex referenced by index-buffer entry k of an item:
vertices[indices[k]].Pos (lines 2574-2583). Out-of-range reads (which the
C++ would make undefined) default to index 0 and the zero vector. -/
def triVertex (ri : RenderItem) (k : ℕ) : Float3 :=
  ri.geoVertices.getD (ri.geoIndices.getD k 0) ⟨0, 0, 0⟩

/-- Hit test of the ray against triangle i of an item, modelling
TriangleTests::Intersects on vertices i0 = indices[i*3+0],
i1 = indices[i*3+1], i2 = indices[i*3+2] (lines 2574-2587). -/
def triHit (ops : GeomOps) (o d : Float3) (ri : RenderItem) (i : ℕ) : Option ℚ :=
  ops.triangleIntersects o d (triVertex ri (i * 3)) (triVertex ri (i * 3 + 1))
    (triVertex ri (i * 3 + 2))

/-- The mutation applied to mPickedRitem when triangle i of item ri becomes
the new nearest within the current item (lines 2592-2604): visible, a
3-index range starting at 3 * i with base vertex 0, the world matrix of
the owning item, and a dirty counter of gNumFrameResources. -/
def pickTriangle (ri : RenderItem) (i : ℕ) (p : RenderItem) : RenderItem :=
  { p with
    Visible := true
    IndexCount := 3
    BaseVertexLocation := 0
    World := ri.World
    NumFramesDirty := gNumFrameResources
    StartIndexLocation := 3 * i }

/-- Comparison t < tmin where tmin may be MathHelper::Infinity (none). -/
def ltInf (t : ℚ) (tmin : Option ℚ) : Bool :=
  match tmin with
  | none => true
  | some m => t < m

/-- Comparison tmin <= c where tmin may be MathHelper::Infinity (none). -/
def leInf (tmin : Option ℚ) (c : ℚ) : Bool :=
  match tmin with
  | none => false
  | some m => m ≤ c

/-- One iteration of the inner triangle loop (lines 2571-2607): on a hit
strictly closer than the current tmin, record the new tmin and overwrite
the highlight item; otherwise leave the accumulator unchanged. -/
def scanStep (ops : GeomOps) (o d : Float3) (ri : RenderItem)
    (acc : Option ℚ × RenderItem) (i : ℕ) : Option ℚ × RenderItem :=
  match triHit ops o d ri i with
  | some t => if ltInf t acc.1 then (some t, pickTriangle ri i acc.2) else acc
  | none => acc

/-- The inner triangle loop of one item: tmin starts at
MathHelper::Infinity (line 2570) and i runs over the IndexCount / 3
triangles of the item (line 2567). -/
def scanItem (ops : GeomOps) (o d : Float3) (ri : RenderItem) (p : RenderItem) :
    Option ℚ × RenderItem :=
  List.foldl (scanStep ops o d ri) (none, p) (List.range (ri.IndexCount / 3))

/-- Ray origin used to test one item: the rayOrigin variable as left by the
previous iteration, transformed as a point by toLocal (line 2549). -/
def itemRayOrigin (invView : Mat4) (st : PickLoop) (ri : RenderItem) : Float3 :=
  xmVector3TransformCoord st.rayOrigin (toLocalOf invView ri)

/-- Ray direction used to test one item: the rayDir variable as left by the
previous iteration, transformed as a vector by toLocal and renormalized
(lines 2550-2553). -/
def itemRayDir (ops : GeomOps) (invView : Mat4) (st : PickLoop) (ri : RenderItem) : Float3 :=
  ops.xmVector3Normalize (xmVector3TransformNormal st.rayDir (toLocalOf invView ri))

/-- Value of the per-item variable tmin after the box and triangle tests of
one visible item (lines 2560-2608): 0 when the bounding box is missed
(BoundingBox::Intersects writes 0 into its distance output on a miss),
otherwise the minimum triangle hit parameter, starting from
MathHelper::Infinity (none) when no triangle is hit. -/
def itemTmin (ops : GeomOps) (o d : Float3) (ri : RenderItem) (p : RenderItem) :
    Option ℚ :=
  match ops.boundsIntersects ri.Bounds o d with
  | none => some 0
  | some _ => (scanItem ops o d ri p).1

/-- The flag update after one visible item (lines 2609-2616):
if (tmin <= 2.0f) stop = true; else if (tmin >= 2.0f) stop = false.
A tmin of MathHelper::Infinity falls into the second branch. -/
def itemVerdict (tmin : Option ℚ) : Bool :=
  leInf tmin 2

/-- One iteration of the outer loop over the Opaque layer (lines
2532-2617). Invisible items are skipped before anything else (lines
2537-2538), leaving all four state components untouched. For a visible
item the two ray variables are overwritten with their transforms into the
item local space, the triangle pass runs only when the bounding box is
hit, and the flag is rewritten from the per-item tmin. -/
def pickStep (ops : GeomOps) (invView : Mat4) (st : PickLoop) (ri : RenderItem) :
    PickLoop :=
  if ri.Visible = false then st
  else
    let o := itemRayOrigin invView st ri
    let d := itemRayDir ops invView st ri
    match ops.boundsIntersects ri.Bounds o d with
    | none =>
        { rayOrigin := o, rayDir := d, picked := st.picked,
          stop := itemVerdict (some 0) }
    | some _ =>
        let s := scanItem ops o d ri st.picked
        { rayOrigin := o, rayDir := d, picked := s.2, stop := itemVerdict s.1 }

/-- The full picker invocation ShapesApp::MazeCollision(sx, sy) (lines
2505-2618). Inputs: the camera view and projection matrices, the client
rectangle, the Opaque render layer, the click coordinate, the current
state of mPickedRitem and of bStopForwardMovement. Returns the new state
of (mPickedRitem, bStopForwardMovement). -/
def mazeCollision (ops : GeomOps) (view proj : Mat4) (clientWidth clientHeight : ℚ)
    (opaqueLayer : List RenderItem) (sx sy : ℤ) (pickedRitem : RenderItem)
    (bStopForwardMovement : Bool) : RenderItem × Bool :=
  let invView := xmMatrixInverse view
  let st0 : PickLoop :=
    { rayOrigin := viewRayOrigin
      rayDir := viewRayDir proj clientWidth clientHeight sx sy
      picked := { pickedRitem with Visible := false }
      stop := bStopForwardMovement }
  let stF := List.foldl (pickStep ops invView) st0 opaqueLayer
  (stF.picked, stF.stop)

/-- Initial loop state of a MazeCollision invocation (lines 2513-2528):
view-space ray, highlight item forced invisible, flag untouched. -/
def pickInit (proj : Mat4) (clientWidth clientHeight : ℚ) (sx sy : ℤ)
    (pickedRitem : RenderItem) (bStopForwardMovement : Bool) : PickLoop :=
  { rayOrigin := viewRayOrigin
    rayDir := viewRayDir proj clientWidth clientHeight sx sy
    picked := { pickedRitem with Visible := false }
    stop := bStopForwardMovement }

/-- Whether the processing of item ri from loop state st records a pick:
the item is visible, its bounding box is hit, and at least one of its
triangles is hit by the (cumulatively transformed) ray. -/
def recordsHit (ops : GeomOps) (invView : Mat4) (st : PickLoop) (ri : RenderItem) :
    Bool :=
  ri.Visible &&
    (ops.boundsIntersects ri.Bounds (itemRayOrigin invView st ri)
        (itemRayDir ops invView st ri)).isSome &&
    (List.range (ri.IndexCount / 3)).any (fun i =>
      (triHit ops (itemRayOrigin invView st ri) (itemRayDir ops invView st ri) ri
          i).isSome)

/-- No item of the list records a pick when the loop is started from st. -/
def noHitsFrom (ops : GeomOps) (invView : Mat4) : PickLoop → List RenderItem → Bool
  | _, [] => true
  | st, ri :: rest =>
      !recordsHit ops invView st ri &&
        noHitsFrom ops invView (pickStep ops invView st ri) rest

/-! ## Characterization lemmas for the triangle scan and the item loop -/

/-- Composing two highlight overwrites keeps only the outer one: every field
written by pickTriangle is rewritten, and the other fields pass through. -/
lemma pickTriangle_pickTriangle (ri rj p : RenderItem) (i j : ℕ) :
    pickTriangle ri i (pickTriangle rj j p) = pickTriangle ri i p := rfl

/-- The inner triangle loop over the first n triangles either records
nothing (no triangle hit: tmin stays at infinity and the highlight item is
untouched), or ends on the first triangle index attaining the minimal hit
parameter, thanks to the strict comparison t < tmin. -/
lemma scanFold_spec (ops : GeomOps) (o d : Float3) (ri p : RenderItem) (n : ℕ) :
    (List.foldl (scanStep ops o d ri) (none, p) (List.range n) = (none, p) ∧
      ∀ i, i < n → triHit ops o d ri i = none) ∨
    (∃ i t, i < n ∧ triHit ops o d ri i = some t ∧
      List.foldl (scanStep ops o d ri) (none, p) (List.range n) =
        (some t, pickTriangle ri i p) ∧
      (∀ j u, j < n → triHit ops o d ri j = some u → t ≤ u) ∧
      (∀ j u, j < i → triHit ops o d ri j = some u → t < u)) := by
  induction n with
  | zero =>
      left
      exact ⟨rfl, fun i h => absurd h (Nat.not_lt_zero i)⟩
  | succ n ih =>
      rw [List.range_succ, List.foldl_append, List.foldl_cons, List.foldl_nil]
      rcases ih with ⟨heq, hnone⟩ | ⟨i, t, hin, hhit, heq, hmin, hfirst⟩
      · rw [heq]
        cases htri : triHit ops o d ri n with
        | none =>
            left
            refine ⟨by simp [scanStep, htri], fun i h => ?_⟩
            rcases Nat.lt_succ_iff_lt_or_eq.mp h with h | h
            · exact hnone i h
            · simpa [h] using htri
        | some t =>
            right
            refine ⟨n, t, Nat.lt_succ_self n, htri, by simp [scanStep, htri, ltInf],
              fun j u hj hu => ?_, fun j u hj hu => ?_⟩
            · rcases Nat.lt_succ_iff_lt_or_eq.mp hj with h | h
              · exact absurd hu (by simp [hnone j h])
              · subst h
                rw [htri] at hu
                exact le_of_eq (Option.some_injective _ hu)
            · exact absurd hu (by simp [hnone j hj])
      · rw [heq]
        cases htri : triHit ops o d ri n with
        | none =>
            right
            refine ⟨i, t, Nat.lt_succ_of_lt hin, hhit, by simp [scanStep, htri],
              fun j u hj hu => ?_, hfirst⟩
            rcases Nat.lt_succ_iff_lt_or_eq.mp hj with h | h
            · exact hmin j u h hu
            · subst h
              simp [htri] at hu
        | some u =>
            by_cases hu : u < t
            · right
              refine ⟨n, u, Nat.lt_succ_self n, htri,
                by simp [scanStep, htri, ltInf, hu, pickTriangle_pickTriangle],
                fun j w hj hw => ?_, fun j w hj hw => ?_⟩
              · rcases Nat.lt_succ_iff_lt_or_eq.mp hj with h | h
                · exact le_of_lt (lt_of_lt_of_le hu (hmin j w h hw))
                · subst h
                  rw [htri] at hw
                  exact le_of_eq (Option.some_injective _ hw)
              · exact lt_of_lt_of_le hu (hmin j w hj hw)
            · right
              refine ⟨i, t, Nat.lt_succ_of_lt hin, hhit,
                by simp [scanStep, htri, ltInf, hu], fun j w hj hw => ?_, hfirst⟩
              rcases Nat.lt_succ_iff_lt_or_eq.mp hj with h | h
              · exact hmin j w h hw
              · subst h
                rw [htri] at hw
                rw [← Option.some_injective _ hw]
                exact le_of_not_lt hu

/-- Instantiation of the scan characterization to a whole item. -/
lemma scanItem_spec (ops : GeomOps) (o d : Float3) (ri p : RenderItem) :
    (scanItem ops o d ri p = (none, p) ∧
      ∀ i, i < ri.IndexCount / 3 → triHit ops o d ri i = none) ∨
    (∃ i t, i < ri.IndexCount / 3 ∧ triHit ops o d ri i = some t ∧
      scanItem ops o d ri p = (some t, pickTriangle ri i p) ∧
      (∀ j u, j < ri.IndexCount / 3 → triHit ops o d ri j = some u → t ≤ u) ∧
      (∀ j u, j < i → triHit ops o d ri j = some u → t < u)) :=
  scanFold_spec ops o d ri p (ri.IndexCount / 3)

/-- An invisible item is skipped outright: no state component changes. -/
lemma pickStep_invisible (ops : GeomOps) (invView : Mat4) (st : PickLoop)
    (ri : RenderItem) (h : ri.Visible = false) :
    pickStep ops invView st ri = st := by
  simp [pickStep, h]

/-- A list of invisible items leaves the whole loop state untouched. -/
lemma foldl_pickStep_invisible (ops : GeomOps) (invView : Mat4) :
    ∀ (L : List RenderItem) (st : PickLoop), (∀ x ∈ L, x.Visible = false) →
      List.foldl (pickStep ops invView) st L = st := by
  intro L
  induction L with
  | nil => intro st _; rfl
  | cons a L ih =>
      intro st h
      rw [List.foldl_cons, pickStep_invisible ops invView st a (h a (by simp))]
      exact ih st (fun x hx => h x (by simp [hx]))

/-- When an item does not record a pick (invisible, bounding box missed, or
no triangle hit), the highlight item passes through its iteration
untouched. -/
lemma pickStep_picked_of_no_hit (ops : GeomOps) (invView : Mat4) (st : PickLoop)
    (ri : RenderItem) (h : recordsHit ops invView st ri = false) :
    (pickStep ops invView st ri).picked = st.picked := by
  cases hv : ri.Visible with
  | false => rw [pickStep_invisible ops invView st ri hv]
  | true =>
    unfold recordsHit at h
    rw [hv] at h
    simp only [Bool.true_and, Bool.and_eq_false_iff] at h
    unfold pickStep
    rw [hv]
    simp only [Bool.true_eq_false, if_false]
    rcases h with h | h
    · cases hbox : ops.boundsIntersects ri.Bounds (itemRayOrigin invView st ri)
          (itemRayDir ops invView st ri) with
      | none => simp [hbox]
      | some v => rw [hbox] at h; simp at h
    · cases hbox : ops.boundsIntersects ri.Bounds (itemRayOrigin invView st ri)
          (itemRayDir ops invView st ri) with
      | none => simp [hbox]
      | some v =>
          simp only [hbox]
          rcases scanItem_spec ops (itemRayOrigin invView st ri)
              (itemRayDir ops invView st ri) ri st.picked with ⟨heq, _⟩ | ⟨i, t, hin, hhit, _, _, _⟩
          · rw [heq]
          · rw [List.any_eq_false] at h
            have := h i (List.mem_range.mpr hin)
            rw [hhit] at this
            simp at this

/-- When an item does record a pick, the highlight item leaves that
iteration overwritten from the first triangle of the item attaining the
minimal hit parameter. -/
lemma pickStep_picked_of_hit (ops : GeomOps) (invView : Mat4) (st : PickLoop)
    (ri : RenderItem) (h : recordsHit ops invView st ri = true) :
    ∃ i t, i < ri.IndexCount / 3 ∧
      triHit ops (itemRayOrigin invView st ri) (itemRayDir ops invView st ri) ri i
        = some t ∧
      (pickStep ops invView st ri).picked = pickTriangle ri i st.picked ∧
      (∀ j u, j < ri.IndexCount / 3 →
        triHit ops (itemRayOrigin invView st ri) (itemRayDir ops invView st ri) ri j
          = some u → t ≤ u) ∧
      (∀ j u, j < i →
        triHit ops (itemRayOrigin invView st ri) (itemRayDir ops invView st ri) ri j
          = some u → t < u) := by
  unfold recordsHit at h
  simp only [Bool.and_eq_true, Option.isSome_iff_exists, List.any_eq_true,
    List.mem_range] at h
  obtain ⟨⟨hv, v, hbox⟩, i0, hi0, t0, hhit0⟩ := h
  rcases scanItem_spec ops (itemRayOrigin invView st ri)
      (itemRayDir ops invView st ri) ri st.picked with ⟨_, hnone⟩ | ⟨i, t, hin, hhit, heq, hmin, hfirst⟩
  · rw [hnone i0 hi0] at hhit0
    exact absurd hhit0 (by simp)
  · refine ⟨i, t, hin, hhit, ?_, hmin, hfirst⟩
    unfold pickStep
    rw [hv]
    simp only [Bool.true_eq_false, if_false, hbox]
    rw [heq]

/-- When no item of the list records a pick, the highlight item survives
the whole loop untouched. -/
lemma foldl_picked_of_noHits (ops : GeomOps) (invView : Mat4) :
    ∀ (L : List RenderItem) (st : PickLoop),
      noHitsFrom ops invView st L = true →
      (List.foldl (pickStep ops invView) st L).picked = st.picked := by
  intro L
  induction L with
  | nil => intro st _; rfl
  | cons a L ih =>
      intro st h
      unfold noHitsFrom at h
      rw [Bool.and_eq_true, Bool.not_eq_true'] at h
      rw [List.foldl_cons, ih (pickStep ops invView st a) h.2,
        pickStep_picked_of_no_hit ops invView st a h.1]

/-- Whatever the item list, the final highlight item is either the initial
one (no pick) or the overwrite recorded by some visible item of the list. -/
lemma foldl_picked_source (ops : GeomOps) (invView : Mat4) :
    ∀ (L : List RenderItem) (st : PickLoop),
      (List.foldl (pickStep ops invView) st L).picked = st.picked ∨
      ∃ ri ∈ L, ri.Visible = true ∧ ∃ i, i < ri.IndexCount / 3 ∧
        (List.foldl (pickStep ops invView) st L).picked = pickTriangle ri i st.picked := by
  intro L
  induction L with
  | nil => intro st; left; rfl
  | cons a L ih =>
      intro st
      rw [List.foldl_cons]
      have hstep : (pickStep ops invView st a).picked = st.picked ∨
          a.Visible = true ∧ ∃ i, i < a.IndexCount / 3 ∧
            (pickStep ops invView st a).picked = pickTriangle a i st.picked := by
        cases hrec : recordsHit ops invView st a with
        | false => exact Or.inl (pickStep_picked_of_no_hit ops invView st a hrec)
        | true =>
            right
            have hv : a.Visible = true := by
              unfold recordsHit at hrec
              simp only [Bool.and_eq_true] at hrec
              exact hrec.1.1
            obtain ⟨i, t, hin, _, heq, _, _⟩ :=
              pickStep_picked_of_hit ops invView st a hrec
            exact ⟨hv, i, hin, heq⟩
      rcases ih (pickStep ops invView st a) with hL | ⟨ri, hri, hv, i, hin, heq⟩
      · rw [hL]
        rcases hstep with h | ⟨hv, i, hin, h⟩
        · exact Or.inl h
        · exact Or.inr ⟨a, by simp, hv, i, hin, h⟩
      · rw [heq]
        rcases hstep with h | ⟨_, j, _, h⟩
        · rw [h]
          exact Or.inr ⟨ri, by simp [hri], hv, i, hin, rfl⟩
        · rw [h, pickTriangle_pickTriangle]
          exact Or.inr ⟨ri, by simp [hri], hv, i, hin, rfl⟩

/-- The fields of a render item that a highlight overwrite never touches:
identity of the allocation, texture transform, constant-buffer index,
geometry shadow copies and bounding box. -/
def sameBase (p q : RenderItem) : Prop :=
  p.id = q.id ∧ p.TexTransform = q.TexTransform ∧ p.ObjCBIndex = q.ObjCBIndex ∧
    p.geoVertices = q.geoVertices ∧ p.geoIndices = q.geoIndices ∧ p.Bounds = q.Bounds

lemma sameBase_refl (p : RenderItem) : sameBase p p :=
  ⟨rfl, rfl, rfl, rfl, rfl, rfl⟩

lemma sameBase_pickTriangle (ri : RenderItem) (i : ℕ) (p : RenderItem) :
    sameBase p (pickTriangle ri i p) :=
  ⟨rfl, rfl, rfl, rfl, rfl, rfl⟩

lemma sameBase_hideBoth {p q : RenderItem} (h : sameBase p q) :
    sameBase { p with Visible := false } { q with Visible := false } := h

/-- Overwriting two render items that agree on the untouched fields yields
equal results. -/
lemma pickTriangle_congr (ri : RenderItem) (i : ℕ) {p q : RenderItem}
    (h : sameBase p q) : pickTriangle ri i p = pickTriangle ri i q := by
  cases p
  cases q
  simp_all [sameBase, pickTriangle]

/-- Two triangle scans of the same item under the same ray, started from
highlight items agreeing on the untouched fields, find the same tmin; and
either both leave the highlight item alone or both produce the same
overwrite. -/
lemma scanItem_pair (ops : GeomOps) (o d : Float3) (ri : RenderItem)
    {p q : RenderItem} (h : sameBase p q) :
    (scanItem ops o d ri p).1 = (scanItem ops o d ri q).1 ∧
    (((scanItem ops o d ri p).2 = p ∧ (scanItem ops o d ri q).2 = q) ∨
      (scanItem ops o d ri p).2 = (scanItem ops o d ri q).2) := by
  rcases scanItem_spec ops o d ri p with ⟨heqp, hnonep⟩ |
      ⟨i, t, hin, hhit, heqp, hminp, hfirstp⟩
  · rcases scanItem_spec ops o d ri q with ⟨heqq, _⟩ | ⟨i, t, hin, hhit, heqq, _, _⟩
    · rw [heqp, heqq]
      exact ⟨rfl, Or.inl ⟨rfl, rfl⟩⟩
    · rw [hnonep i hin] at hhit
      exact absurd hhit (by simp)
  · rcases scanItem_spec ops o d ri q with ⟨heqq, hnoneq⟩ |
        ⟨i2, t2, hin2, hhit2, heqq, hminq, hfirstq⟩
    · rw [hnoneq i hin] at hhit
      exact absurd hhit (by simp)
    · have ht : t = t2 := le_antisymm (hminp i2 t2 hin2 hhit2) (hminq i t hin hhit)
      have hi : i = i2 := by
        rcases lt_trichotomy i i2 with hlt | heqi | hgt
        · have := hfirstq i t hlt hhit
          exact absurd this (by rw [ht]; exact lt_irrefl t2)
        · exact heqi
        · have := hfirstp i2 t2 hgt hhit2
          exact absurd this (by rw [ht]; exact lt_irrefl t2)
      rw [heqp, heqq, ht, hi]
      exact ⟨rfl, Or.inr (pickTriangle_congr ri i2 h)⟩

/-- One loop iteration run from two states agreeing on the ray (and whose
highlight items agree on the untouched fields) keeps the rays equal, and
either leaves both highlight items and both flags at their incoming values
or makes them equal. -/
lemma pickStep_pair (ops : GeomOps) (invView : Mat4) (st st' : PickLoop)
    (ri : RenderItem) (ho : st.rayOrigin = st'.rayOrigin)
    (hd : st.rayDir = st'.rayDir) (hb : sameBase st.picked st'.picked) :
    (pickStep ops invView st ri).rayOrigin = (pickStep ops invView st' ri).rayOrigin ∧
    (pickStep ops invView st ri).rayDir = (pickStep ops invView st' ri).rayDir ∧
    sameBase (pickStep ops invView st ri).picked (pickStep ops invView st' ri).picked ∧
    (((pickStep ops invView st ri).picked = st.picked ∧
        (pickStep ops invView st' ri).picked = st'.picked) ∨
      (pickStep ops invView st ri).picked = (pickStep ops invView st' ri).picked) ∧
    (((pickStep ops invView st ri).stop = st.stop ∧
        (pickStep ops invView st' ri).stop = st'.stop) ∨
      (pickStep ops invView st ri).stop = (pickStep ops invView st' ri).stop) := by
  cases hv : ri.Visible with
  | false =>
      rw [pickStep_invisible ops invView st ri hv,
        pickStep_invisible ops invView st' ri hv]
      exact ⟨ho, hd, hb, Or.inl ⟨rfl, rfl⟩, Or.inl ⟨rfl, rfl⟩⟩
  | true =>
      have hoo : itemRayOrigin invView st' ri = itemRayOrigin invView st ri := by
        unfold itemRayOrigin
        rw [ho]
      have hdd : itemRayDir ops invView st' ri = itemRayDir ops invView st ri := by
        unfold itemRayDir
        rw [hd]
      simp only [pickStep, hv, Bool.true_eq_false, if_false, hoo, hdd]
      cases hbox : ops.boundsIntersects ri.Bounds (itemRayOrigin invView st ri)
          (itemRayDir ops invView st ri) with
      | none =>
          simp only [hbox]
          exact ⟨by trivial, by trivial, hb, Or.inl ⟨by trivial, by trivial⟩,
            Or.inr (by trivial)⟩
      | some v =>
          obtain ⟨h1, h2⟩ := scanItem_pair ops (itemRayOrigin invView st ri)
            (itemRayDir ops invView st ri) ri hb
          simp only [hbox]
          refine ⟨by trivial, by trivial, ?_, ?_, Or.inr (by rw [h1])⟩
          · rcases h2 with ⟨hp, hq⟩ | heq2
            · rw [hp, hq]
              exact hb
            · rw [heq2]
              exact sameBase_refl _
          · rcases h2 with ⟨hp, hq⟩ | heq2
            · exact Or.inl ⟨hp, hq⟩
            · exact Or.inr heq2

/-- Whole-loop version of the pairing lemma. -/
lemma foldl_pickStep_pair (ops : GeomOps) (invView : Mat4) :
    ∀ (L : List RenderItem) (st st' : PickLoop),
      st.rayOrigin = st'.rayOrigin → st.rayDir = st'.rayDir →
      sameBase st.picked st'.picked →
      (List.foldl (pickStep ops invView) st L).rayOrigin =
        (List.foldl (pickStep ops invView) st' L).rayOrigin ∧
      (List.foldl (pickStep ops invView) st L).rayDir =
        (List.foldl (pickStep ops invView) st' L).rayDir ∧
      sameBase (List.foldl (pickStep ops invView) st L).picked
        (List.foldl (pickStep ops invView) st' L).picked ∧
      (((List.foldl (pickStep ops invView) st L).picked = st.picked ∧
          (List.foldl (pickStep ops invView) st' L).picked = st'.picked) ∨
        (List.foldl (pickStep ops invView) st L).picked =
          (List.foldl (pickStep ops invView) st' L).picked) ∧
      (((List.foldl (pickStep ops invView) st L).stop = st.stop ∧
          (List.foldl (pickStep ops invView) st' L).stop = st'.stop) ∨
        (List.foldl (pickStep ops invView) st L).stop =
          (List.foldl (pickStep ops invView) st' L).stop) := by
  intro L
  induction L with
  | nil => exact fun st st' ho hd hb => ⟨ho, hd, hb, Or.inl ⟨rfl, rfl⟩, Or.inl ⟨rfl, rfl⟩⟩
  | cons a L ih =>
      intro st st' ho hd hb
      obtain ⟨so, sd, sb, sp, ss⟩ := pickStep_pair ops invView st st' a ho hd hb
      obtain ⟨fo, fd, fb, fp, fs⟩ :=
        ih (pickStep ops invView st a) (pickStep ops invView st' a) so sd sb
      rw [List.foldl_cons, List.foldl_cons]
      refine ⟨fo, fd, fb, ?_, ?_⟩
      · rcases fp with ⟨f1, f2⟩ | feq
        · rcases sp with ⟨s1, s2⟩ | seq
          · exact Or.inl ⟨f1.trans s1, f2.trans s2⟩
          · exact Or.inr (by rw [f1, f2, seq])
        · exact Or.inr feq
      · rcases fs with ⟨f1, f2⟩ | feq
        · rcases ss with ⟨s1, s2⟩ | seq
          · exact Or.inl ⟨f1.trans s1, f2.trans s2⟩
          · exact Or.inr (by rw [f1, f2, seq])
        · exact Or.inr feq

/-- Forcing the visibility flag off is the identity on an item already
invisible. -/
lemma hide_invisible {p : RenderItem} (h : p.Visible = false) :
    { p with Visible := false } = p := by
  cases p
  simp_all

/-- The flag left behind by one visible item is the verdict of the per-item
tmin of lines 2560-2616. -/
lemma pickStep_stop_visible (ops : GeomOps) (invView : Mat4) (st : PickLoop)
    (ri : RenderItem) (hv : ri.Visible = true) :
    (pickStep ops invView st ri).stop =
      itemVerdict (itemTmin ops (itemRayOrigin invView st ri)
        (itemRayDir ops invView st ri) ri st.picked) := by
  simp only [pickStep, hv, Bool.true_eq_false, if_false, itemTmin]
  cases hbox : ops.boundsIntersects ri.Bounds (itemRayOrigin invView st ri)
      (itemRayDir ops invView st ri) with
  | none => simp [hbox]
  | some v => simp [hbox]

/-- Loop state left behind by the prefix L of the Opaque layer inside one
MazeCollision invocation. -/
def pickStateAfter (ops : GeomOps) (view proj : Mat4) (clientWidth clientHeight : ℚ)
    (sx sy : ℤ) (pickedRitem : RenderItem) (bStop : Bool) (L : List RenderItem) :
    PickLoop :=
  List.foldl (pickStep ops (xmMatrixInverse view))
    (pickInit proj clientWidth clientHeight sx sy pickedRitem bStop) L

/-- MazeCollision is the projection of the final loop state. -/
lemma mazeCollision_eq (ops : GeomOps) (view proj : Mat4) (cw ch : ℚ)
    (L : List RenderItem) (sx sy : ℤ) (p : RenderItem) (b : Bool) :
    mazeCollision ops view proj cw ch L sx sy p b =
      ((pickStateAfter ops view proj cw ch sx sy p b L).picked,
        (pickStateAfter ops view proj cw ch sx sy p b L).stop) := rfl

/-! ## Concrete fixtures used by witnesses and counterexamples -/

/-- A collision library in which nothing is ever hit. -/
def opsMissAll : GeomOps :=
  ⟨fun v => v, fun _ _ _ => none, fun _ _ _ _ _ => none⟩

/-- A collision library keyed on the first triangle vertex: every bounding
box is hit at distance 1, and a triangle is hit at distance 1, 5, 3/2 or 3
according to its first vertex. Rays are ignored, making the evaluation of
whole invocations immediate. -/
def opsByVertex : GeomOps :=
  ⟨fun v => v, fun _ _ _ => some 1,
   fun _ _ v0 _ _ =>
     if v0 = ⟨1, 0, 0⟩ then some 1
     else if v0 = ⟨2, 0, 0⟩ then some 5
     else if v0 = ⟨3, 0, 0⟩ then some (3 / 2)
     else if v0 = ⟨4, 0, 0⟩ then some 3
     else none⟩

/-- A unit bounding box at the origin. -/
def bbox0 : BoundingBoxQ := ⟨⟨0, 0, 0⟩, ⟨1, 1, 1⟩⟩

/-- A uniform scaling world matrix (2, 2, 2). -/
def scaleTwo : Mat4 :=
  ⟨2, 0, 0, 0,
   0, 2, 0, 0,
   0, 0, 2, 0,
   0, 0, 0, 1⟩

/-- A translation world matrix by (5, 0, 0) in the row-vector convention. -/
def transFive : Mat4 :=
  ⟨1, 0, 0, 0,
   0, 1, 0, 0,
   0, 0, 1, 0,
   5, 0, 0, 1⟩

/-- A visible one-triangle item whose triangle is hit at distance 1. -/
def itemA : RenderItem :=
  { id := 1, World := id4, TexTransform := id4, NumFramesDirty := 0, ObjCBIndex := 1,
    geoVertices := [⟨1, 0, 0⟩, ⟨0, 1, 0⟩, ⟨0, 0, 1⟩], geoIndices := [0, 1, 2],
    IndexCount := 3, StartIndexLocation := 0, BaseVertexLocation := 0,
    Bounds := bbox0, Visible := true }

/-- A visible one-triangle item with a scaling world matrix whose triangle
is hit at distance 5. -/
def itemB : RenderItem :=
  { id := 2, World := scaleTwo, TexTransform := id4, NumFramesDirty := 0, ObjCBIndex := 2,
    geoVertices := [⟨2, 0, 0⟩, ⟨0, 1, 0⟩, ⟨0, 0, 1⟩], geoIndices := [0, 1, 2],
    IndexCount := 3, StartIndexLocation := 0, BaseVertexLocation := 0,
    Bounds := bbox0, Visible := true }

/-- A visible one-triangle item whose triangle is hit at distance 3/2. -/
def itemNear : RenderItem :=
  { id := 3, World := id4, TexTransform := id4, NumFramesDirty := 0, ObjCBIndex := 3,
    geoVertices := [⟨3, 0, 0⟩, ⟨0, 1, 0⟩, ⟨0, 0, 1⟩], geoIndices := [0, 1, 2],
    IndexCount := 3, StartIndexLocation := 0, BaseVertexLocation := 0,
    Bounds := bbox0, Visible := true }

/-- A visible one-triangle item whose triangle is hit at distance 3. -/
def itemFar : RenderItem :=
  { id := 4, World := id4, TexTransform := id4, NumFramesDirty := 0, ObjCBIndex := 4,
    geoVertices := [⟨4, 0, 0⟩, ⟨0, 1, 0⟩, ⟨0, 0, 1⟩], geoIndices := [0, 1, 2],
    IndexCount := 3, StartIndexLocation := 0, BaseVertexLocation := 0,
    Bounds := bbox0, Visible := true }

/-- A visible item whose bounding box is hit but whose only triangle is
missed. -/
def itemBoxOnly : RenderItem :=
  { id := 5, World := id4, TexTransform := id4, NumFramesDirty := 0, ObjCBIndex := 5,
    geoVertices := [⟨9, 0, 0⟩, ⟨0, 1, 0⟩, ⟨0, 0, 1⟩], geoIndices := [0, 1, 2],
    IndexCount := 3, StartIndexLocation := 0, BaseVertexLocation := 0,
    Bounds := bbox0, Visible := true }

/-- A visible item whose world matrix is a translation by (5, 0, 0). -/
def itemTrans : RenderItem :=
  { id := 6, World := transFive, TexTransform := id4, NumFramesDirty := 0, ObjCBIndex := 6,
    geoVertices := [⟨9, 0, 0⟩, ⟨0, 1, 0⟩, ⟨0, 0, 1⟩], geoIndices := [0, 1, 2],
    IndexCount := 3, StartIndexLocation := 0, BaseVertexLocation := 0,
    Bounds := bbox0, Visible := true }

/-- A visible two-triangle item whose two triangles are hit at the same
distance 1 (an exact tie). -/
def itemTie : RenderItem :=
  { id := 7, World := id4, TexTransform := id4, NumFramesDirty := 0, ObjCBIndex := 7,
    geoVertices := [⟨1, 0, 0⟩, ⟨0, 1, 0⟩, ⟨0, 0, 1⟩], geoIndices := [0, 1, 2, 0, 1, 2],
    IndexCount := 6, StartIndexLocation := 0, BaseVertexLocation := 0,
    Bounds := bbox0, Visible := true }

/-- The highlight render item in its initial state (lines 2370-2384). -/
def picked0 : RenderItem :=
  { id := 100, World := id4, TexTransform := id4, NumFramesDirty := gNumFrameResources,
    ObjCBIndex := 106, geoVertices := [], geoIndices := [], IndexCount := 0,
    StartIndexLocation := 0, BaseVertexLocation := 0, Bounds := bbox0, Visible := false }

/-! ## Claim C6: a miss leaves the highlight item invisible and untouched -/

/-- Claim C6: if a picker invocation intersects no triangle of any visible
opaque render item, then afterwards the highlight item is invisible and
its IndexCount, StartIndexLocation, BaseVertexLocation, World and
NumFramesDirty are exactly what they were before the call; a miss is a
normal outcome (nothing selected), not an error. -/
theorem mazeCollision_miss_leaves_highlight (ops : GeomOps) (view proj : Mat4)
    (cw ch : ℚ) (L : List RenderItem) (sx sy : ℤ) (p : RenderItem) (b : Bool)
    (h : noHitsFrom ops (xmMatrixInverse view)
      (pickInit proj cw ch sx sy p b) L = true) :
    (mazeCollision ops view proj cw ch L sx sy p b).1.Visible = false ∧
    (mazeCollision ops view proj cw ch L sx sy p b).1.IndexCount = p.IndexCount ∧
    (mazeCollision ops view proj cw ch L sx sy p b).1.StartIndexLocation =
      p.StartIndexLocation ∧
    (mazeCollision ops view proj cw ch L sx sy p b).1.BaseVertexLocation =
      p.BaseVertexLocation ∧
    (mazeCollision ops view proj cw ch L sx sy p b).1.World = p.World ∧
    (mazeCollision ops view proj cw ch L sx sy p b).1.NumFramesDirty =
      p.NumFramesDirty := by
  have hp := foldl_picked_of_noHits ops (xmMatrixInverse view) L
    (pickInit proj cw ch sx sy p b) h
  rw [mazeCollision_eq]
  unfold pickStateAfter
  rw [hp]
  exact ⟨rfl, rfl, rfl, rfl, rfl, rfl⟩

/-- Witness for C6: with a collision library that hits nothing and one
visible item in the layer, the hypothesis holds and the highlight item
comes out invisible with all other fields untouched. -/
theorem mazeCollision_miss_leaves_highlight_witness :
    noHitsFrom opsMissAll (xmMatrixInverse id4)
      (pickInit id4 2 2 1 1 picked0 true) [itemA] = true ∧
    ((mazeCollision opsMissAll id4 id4 2 2 [itemA] 1 1 picked0 true).1.Visible = false ∧
      (mazeCollision opsMissAll id4 id4 2 2 [itemA] 1 1 picked0 true).1.IndexCount =
        picked0.IndexCount ∧
      (mazeCollision opsMissAll id4 id4 2 2 [itemA] 1 1 picked0 true).1.StartIndexLocation =
        picked0.StartIndexLocation ∧
      (mazeCollision opsMissAll id4 id4 2 2 [itemA] 1 1 picked0 true).1.BaseVertexLocation =
        picked0.BaseVertexLocation ∧
      (mazeCollision opsMissAll id4 id4 2 2 [itemA] 1 1 picked0 true).1.World =
        picked0.World ∧
      (mazeCollision opsMissAll id4 id4 2 2 [itemA] 1 1 picked0 true).1.NumFramesDirty =
        picked0.NumFramesDirty) :=
  ⟨by norm_num [noHitsFrom, recordsHit, opsMissAll, itemA],
   mazeCollision_miss_leaves_highlight opsMissAll id4 id4 2 2 [itemA] 1 1 picked0 true
     (by norm_num [noHitsFrom, recordsHit, opsMissAll, itemA])⟩

/-! ## Claim C1: which item determines the highlight -/

/-- Counterexample to C1 as stated: the layer holds itemA (triangle hit at
distance 1) followed by itemB (triangle hit at distance 5). The globally
nearest triangle belongs to itemA, yet after the call the highlight world
matrix is the one of itemB, because the source resets tmin to infinity for
every item with a bounding-box hit (line 2570), so the last item with any
triangle hit wins. -/
theorem mazeCollision_not_global_nearest :
    (mazeCollision opsByVertex id4 id4 2 2 [itemA, itemB] 1 1 picked0 false).1.World
      = itemB.World ∧
    itemB.World ≠ itemA.World ∧
    triHit opsByVertex ⟨0, 0, 0⟩ ⟨0, 0, 1⟩ itemA 0 = some 1 ∧
    triHit opsByVertex ⟨0, 0, 0⟩ ⟨0, 0, 1 / 2⟩ itemB 0 = some 5 ∧
    (1 : ℚ) < 5 := by
  refine ⟨?_, ?_, ?_, ?_, by norm_num⟩
  · norm_num [mazeCollision, pickStep, pickInit, viewRayOrigin, viewRayDir,
      itemRayOrigin, itemRayDir, toLocalOf, xmMatrixInverse, xmMatrixMultiply,
      xmVector3TransformCoord, xmVector3TransformNormal, scanItem, scanStep,
      triHit, triVertex, pickTriangle, ltInf, leInf, itemVerdict, opsByVertex,
      itemA, itemB, picked0, id4, scaleTwo, bbox0, List.range_succ]
  · norm_num [itemA, itemB, scaleTwo, id4]
  · norm_num [triHit, triVertex, opsByVertex, itemA]
  · norm_num [triHit, triVertex, opsByVertex, itemB]

/-- Claim C1 amended: the highlight is determined not by the globally
nearest triangle but by the last item of the Opaque layer (in iteration
order) that records a triangle hit - under the cumulatively transformed
ray - provided no later item records one; within that item the winning
triangle is the first one attaining the minimal hit parameter, and the
highlight receives Visible = true, IndexCount = 3, StartIndexLocation =
3 * triangle, World = that item world matrix and NumFramesDirty = 3. -/
theorem mazeCollision_highlight_from_last_hit (ops : GeomOps) (view proj : Mat4)
    (cw ch : ℚ) (sx sy : ℤ) (p0 : RenderItem) (b0 : Bool) (L1 L2 : List RenderItem)
    (ri : RenderItem)
    (hhit : recordsHit ops (xmMatrixInverse view)
      (pickStateAfter ops view proj cw ch sx sy p0 b0 L1) ri = true)
    (hafter : noHitsFrom ops (xmMatrixInverse view)
      (pickStep ops (xmMatrixInverse view)
        (pickStateAfter ops view proj cw ch sx sy p0 b0 L1) ri) L2 = true) :
    ∃ i t, i < ri.IndexCount / 3 ∧
      triHit ops
        (itemRayOrigin (xmMatrixInverse view)
          (pickStateAfter ops view proj cw ch sx sy p0 b0 L1) ri)
        (itemRayDir ops (xmMatrixInverse view)
          (pickStateAfter ops view proj cw ch sx sy p0 b0 L1) ri) ri i = some t ∧
      (∀ j u, j < ri.IndexCount / 3 →
        triHit ops
          (itemRayOrigin (xmMatrixInverse view)
            (pickStateAfter ops view proj cw ch sx sy p0 b0 L1) ri)
          (itemRayDir ops (xmMatrixInverse view)
            (pickStateAfter ops view proj cw ch sx sy p0 b0 L1) ri) ri j = some u →
        t ≤ u) ∧
      (∀ j u, j < i →
        triHit ops
          (itemRayOrigin (xmMatrixInverse view)
            (pickStateAfter ops view proj cw ch sx sy p0 b0 L1) ri)
          (itemRayDir ops (xmMatrixInverse view)
            (pickStateAfter ops view proj cw ch sx sy p0 b0 L1) ri) ri j = some u →
        t < u) ∧
      (mazeCollision ops view proj cw ch (L1 ++ ri :: L2) sx sy p0 b0).1 =
        pickTriangle ri i { p0 with Visible := false } ∧
      (mazeCollision ops view proj cw ch (L1 ++ ri :: L2) sx sy p0 b0).1.Visible
        = true ∧
      (mazeCollision ops view proj cw ch (L1 ++ ri :: L2) sx sy p0 b0).1.IndexCount
        = 3 ∧
      (mazeCollision ops view proj cw ch (L1 ++ ri :: L2) sx sy p0
        b0).1.StartIndexLocation = 3 * i ∧
      (mazeCollision ops view proj cw ch (L1 ++ ri :: L2) sx sy p0 b0).1.World
        = ri.World ∧
      (mazeCollision ops view proj cw ch (L1 ++ ri :: L2) sx sy p0
        b0).1.NumFramesDirty = gNumFrameResources := by
  obtain ⟨i, t, hin, hhit2, heq, hmin, hfirst⟩ :=
    pickStep_picked_of_hit ops (xmMatrixInverse view)
      (pickStateAfter ops view proj cw ch sx sy p0 b0 L1) ri hhit
  have hL2 := foldl_picked_of_noHits ops (xmMatrixInverse view) L2
    (pickStep ops (xmMatrixInverse view)
      (pickStateAfter ops view proj cw ch sx sy p0 b0 L1) ri) hafter
  have hfin : (mazeCollision ops view proj cw ch (L1 ++ ri :: L2) sx sy p0 b0).1 =
      pickTriangle ri i { p0 with Visible := false } := by
    rw [mazeCollision_eq]
    show (pickStateAfter ops view proj cw ch sx sy p0 b0 (L1 ++ ri :: L2)).picked = _
    unfold pickStateAfter
    rw [List.foldl_append, List.foldl_cons]
    show (List.foldl (pickStep ops (xmMatrixInverse view))
      (pickStep ops (xmMatrixInverse view)
        (pickStateAfter ops view proj cw ch sx sy p0 b0 L1) ri) L2).picked = _
    rw [hL2, heq]
    rcases foldl_picked_source ops (xmMatrixInverse view) L1
        (pickInit proj cw ch sx sy p0 b0) with hsrc | ⟨rj, _, _, j, _, hsrc⟩
    · show pickTriangle ri i
        (pickStateAfter ops view proj cw ch sx sy p0 b0 L1).picked = _
      rw [show (pickStateAfter ops view proj cw ch sx sy p0 b0 L1).picked =
        (pickInit proj cw ch sx sy p0 b0).picked from hsrc]
      rfl
    · show pickTriangle ri i
        (pickStateAfter ops view proj cw ch sx sy p0 b0 L1).picked = _
      rw [show (pickStateAfter ops view proj cw ch sx sy p0 b0 L1).picked =
        pickTriangle rj j (pickInit proj cw ch sx sy p0 b0).picked from hsrc,
        pickTriangle_pickTriangle]
      rfl
  refine ⟨i, t, hin, hhit2, hmin, hfirst, hfin, ?_, ?_, ?_, ?_, ?_⟩ <;>
    rw [hfin] <;> rfl

/-- Witness for the amended C1: a single visible item records a hit and the
highlight comes out overwritten from its first (and only) triangle. -/
theorem mazeCollision_highlight_from_last_hit_witness :
    recordsHit opsByVertex (xmMatrixInverse id4)
      (pickStateAfter opsByVertex id4 id4 2 2 1 1 picked0 false []) itemA = true ∧
    noHitsFrom opsByVertex (xmMatrixInverse id4)
      (pickStep opsByVertex (xmMatrixInverse id4)
        (pickStateAfter opsByVertex id4 id4 2 2 1 1 picked0 false []) itemA) []
      = true ∧
    (∃ i t, i < itemA.IndexCount / 3 ∧
      triHit opsByVertex
        (itemRayOrigin (xmMatrixInverse id4)
          (pickStateAfter opsByVertex id4 id4 2 2 1 1 picked0 false []) itemA)
        (itemRayDir opsByVertex (xmMatrixInverse id4)
          (pickStateAfter opsByVertex id4 id4 2 2 1 1 picked0 false []) itemA)
        itemA i = some t ∧
      (∀ j u, j < itemA.IndexCount / 3 →
        triHit opsByVertex
          (itemRayOrigin (xmMatrixInverse id4)
            (pickStateAfter opsByVertex id4 id4 2 2 1 1 picked0 false []) itemA)
          (itemRayDir opsByVertex (xmMatrixInverse id4)
            (pickStateAfter opsByVertex id4 id4 2 2 1 1 picked0 false []) itemA)
          itemA j = some u → t ≤ u) ∧
      (∀ j u, j < i →
        triHit opsByVertex
          (itemRayOrigin (xmMatrixInverse id4)
            (pickStateAfter opsByVertex id4 id4 2 2 1 1 picked0 false []) itemA)
          (itemRayDir opsByVertex (xmMatrixInverse id4)
            (pickStateAfter opsByVertex id4 id4 2 2 1 1 picked0 false []) itemA)
          itemA j = some u → t < u) ∧
      (mazeCollision opsByVertex id4 id4 2 2 ([] ++ itemA :: []) 1 1 picked0
        false).1 = pickTriangle itemA i { picked0 with Visible := false } ∧
      (mazeCollision opsByVertex id4 id4 2 2 ([] ++ itemA :: []) 1 1 picked0
        false).1.Visible = true ∧
      (mazeCollision opsByVertex id4 id4 2 2 ([] ++ itemA :: []) 1 1 picked0
        false).1.IndexCount = 3 ∧
      (mazeCollision opsByVertex id4 id4 2 2 ([] ++ itemA :: []) 1 1 picked0
        false).1.StartIndexLocation = 3 * i ∧
      (mazeCollision opsByVertex id4 id4 2 2 ([] ++ itemA :: []) 1 1 picked0
        false).1.World = itemA.World ∧
      (mazeCollision opsByVertex id4 id4 2 2 ([] ++ itemA :: []) 1 1 picked0
        false).1.NumFramesDirty = gNumFrameResources) :=
  ⟨by norm_num [recordsHit, pickStateAfter, pickInit, viewRayOrigin, viewRayDir,
      itemRayOrigin, itemRayDir, toLocalOf, xmMatrixInverse, xmMatrixMultiply,
      xmVector3TransformCoord, xmVector3TransformNormal, triHit, triVertex,
      opsByVertex, itemA, picked0, id4, bbox0, List.range_succ],
   rfl,
   mazeCollision_highlight_from_last_hit opsByVertex id4 id4 2 2 1 1 picked0 false
     [] [] itemA
     (by norm_num [recordsHit, pickStateAfter, pickInit, viewRayOrigin, viewRayDir,
       itemRayOrigin, itemRayDir, toLocalOf, xmMatrixInverse, xmMatrixMultiply,
       xmVector3TransformCoord, xmVector3TransformNormal, triHit, triVertex,
       opsByVertex, itemA, picked0, id4, bbox0, List.range_succ])
     rfl⟩

/-! ## Claim C2: the ray fed to each item -/

/-- Modelled from the spec: the local-space ray origin the specification
prescribes for an item - the fresh view-space pick ray origin (0,0,0,1)
transformed as a point through that item combined transform
inverse(View) * inverse(World), independently of any previously tested
item. Used only for comparison against the source behaviour. -/
def specItemRayOrigin (view : Mat4) (ri : RenderItem) : Float3 :=
  xmVector3TransformCoord viewRayOrigin (toLocalOf (xmMatrixInverse view) ri)

/-- Claim C2 is violated by the code: the source transforms the ray
variables in place (lines 2549-2553), so the second item is tested with a
ray already expressed in the first item local space. Concretely, with the
identity view and a first item whose world matrix translates by (5,0,0),
the ray origin used for the second (identity-world) item is (-5,0,0),
while the specification prescribes the view-space origin (0,0,0). -/
theorem mazeCollision_ray_not_fresh :
    itemRayOrigin (xmMatrixInverse id4)
      (pickStateAfter opsMissAll id4 id4 2 2 1 1 picked0 false [itemTrans]) itemA
      = ⟨-5, 0, 0⟩ ∧
    specItemRayOrigin id4 itemA = ⟨0, 0, 0⟩ ∧
    itemRayOrigin (xmMatrixInverse id4)
      (pickStateAfter opsMissAll id4 id4 2 2 1 1 picked0 false [itemTrans]) itemA
      ≠ specItemRayOrigin id4 itemA := by
  refine ⟨?_, ?_, ?_⟩ <;>
    norm_num [itemRayOrigin, specItemRayOrigin, pickStateAfter, pickInit,
      pickStep, viewRayOrigin, viewRayDir, itemRayDir, toLocalOf,
      xmMatrixInverse, xmMatrixMultiply, xmVector3TransformCoord,
      xmVector3TransformNormal, opsMissAll, itemTrans, itemA, picked0, id4,
      transFive, bbox0]

/-! ## Claim C3: the movement-blocked flag -/

/-- Counterexample to C3 as stated: itemNear is hit at distance 3/2 (at or
below the threshold 2), but it is followed in the layer by itemBoxOnly,
whose bounding box is hit while its triangle is missed, so that final
iteration leaves tmin at infinity and clears the flag. The globally
nearest hit distance is 3/2, yet bStopForwardMovement ends up false. -/
theorem mazeCollision_flag_not_nearest :
    (mazeCollision opsByVertex id4 id4 2 2 [itemNear, itemBoxOnly] 1 1 picked0
      true).2 = false ∧
    triHit opsByVertex ⟨0, 0, 0⟩ ⟨0, 0, 1⟩ itemNear 0 = some (3 / 2) ∧
    ((3 : ℚ) / 2 ≤ 2) := by
  refine ⟨?_, ?_, by norm_num⟩
  · norm_num [mazeCollision, pickStep, pickInit, viewRayOrigin, viewRayDir,
      itemRayOrigin, itemRayDir, toLocalOf, xmMatrixInverse, xmMatrixMultiply,
      xmVector3TransformCoord, xmVector3TransformNormal, scanItem, scanStep,
      triHit, triVertex, pickTriangle, ltInf, leInf, itemVerdict, opsByVertex,
      itemNear, itemBoxOnly, picked0, id4, bbox0, List.range_succ]
  · norm_num [triHit, triVertex, opsByVertex, itemNear]

/-- Claim C3 amended: after a picker invocation the movement-blocked flag
reflects the per-item tmin of the last visible item of the layer (0 when
its bounding box is missed, infinity when the box is hit but no triangle
is, else the minimum triangle hit distance of that item alone): the flag
is true exactly when that value is at most 2. When the layer holds no
visible item the flag keeps its previous value. For a single visible wall
item this coincides with the stated nearest-hit rule, so a lone hit at
distance 3/2 sets the flag and a lone hit at distance 3 clears it. -/
theorem mazeCollision_flag_from_last_visible (ops : GeomOps) (view proj : Mat4)
    (cw ch : ℚ) (sx sy : ℤ) (p0 : RenderItem) (b0 : Bool) :
    (∀ (L1 : List RenderItem) (ri : RenderItem) (L2 : List RenderItem),
      ri.Visible = true → (∀ x ∈ L2, x.Visible = false) →
      (mazeCollision ops view proj cw ch (L1 ++ ri :: L2) sx sy p0 b0).2 =
        itemVerdict (itemTmin ops
          (itemRayOrigin (xmMatrixInverse view)
            (pickStateAfter ops view proj cw ch sx sy p0 b0 L1) ri)
          (itemRayDir ops (xmMatrixInverse view)
            (pickStateAfter ops view proj cw ch sx sy p0 b0 L1) ri) ri
          (pickStateAfter ops view proj cw ch sx sy p0 b0 L1).picked)) ∧
    (∀ L : List RenderItem, (∀ x ∈ L, x.Visible = false) →
      (mazeCollision ops view proj cw ch L sx sy p0 b0).2 = b0) := by
  constructor
  · intro L1 ri L2 hv hinv
    rw [mazeCollision_eq]
    show (pickStateAfter ops view proj cw ch sx sy p0 b0 (L1 ++ ri :: L2)).stop = _
    unfold pickStateAfter
    rw [List.foldl_append, List.foldl_cons]
    rw [foldl_pickStep_invisible ops (xmMatrixInverse view) L2 _ hinv]
    exact pickStep_stop_visible ops (xmMatrixInverse view)
      (pickStateAfter ops view proj cw ch sx sy p0 b0 L1) ri hv
  · intro L hinv
    rw [mazeCollision_eq]
    show (pickStateAfter ops view proj cw ch sx sy p0 b0 L).stop = _
    unfold pickStateAfter
    rw [foldl_pickStep_invisible ops (xmMatrixInverse view) L _ hinv]
    rfl

/-- Witness for the amended C3: a lone wall hit at 3/2 sets the flag, a
lone wall hit at 3 clears it, and an all-invisible layer leaves it
alone. -/
theorem mazeCollision_flag_from_last_visible_witness :
    itemNear.Visible = true ∧
    (mazeCollision opsByVertex id4 id4 2 2 ([] ++ itemNear :: []) 1 1 picked0
        false).2 =
      itemVerdict (itemTmin opsByVertex
        (itemRayOrigin (xmMatrixInverse id4)
          (pickStateAfter opsByVertex id4 id4 2 2 1 1 picked0 false []) itemNear)
        (itemRayDir opsByVertex (xmMatrixInverse id4)
          (pickStateAfter opsByVertex id4 id4 2 2 1 1 picked0 false []) itemNear)
        itemNear
        (pickStateAfter opsByVertex id4 id4 2 2 1 1 picked0 false []).picked) ∧
    (mazeCollision opsByVertex id4 id4 2 2 [itemNear] 1 1 picked0 false).2
      = true ∧
    (mazeCollision opsByVertex id4 id4 2 2 [itemFar] 1 1 picked0 false).2
      = false :=
  ⟨rfl,
   (mazeCollision_flag_from_last_visible opsByVertex id4 id4 2 2 1 1 picked0
      false).1 [] itemNear [] rfl (by simp),
   by norm_num [mazeCollision, pickStep, pickInit, viewRayOrigin, viewRayDir,
      itemRayOrigin, itemRayDir, toLocalOf, xmMatrixInverse, xmMatrixMultiply,
      xmVector3TransformCoord, xmVector3TransformNormal, scanItem, scanStep,
      triHit, triVertex, pickTriangle, ltInf, leInf, itemVerdict, opsByVertex,
      itemNear, picked0, id4, bbox0, List.range_succ],
   by norm_num [mazeCollision, pickStep, pickInit, viewRayOrigin, viewRayDir,
      itemRayOrigin, itemRayDir, toLocalOf, xmMatrixInverse, xmMatrixMultiply,
      xmVector3TransformCoord, xmVector3TransformNormal, scanItem, scanStep,
      triHit, triVertex, pickTriangle, ltInf, leInf, itemVerdict, opsByVertex,
      itemFar, picked0, id4, bbox0, List.range_succ]⟩

/-! ## Claim C9: determinism and tie-breaking -/

/-- Claim C9: picking is deterministic. Re-running the invocation on the
same scene, camera and click, starting from the highlight-item state and
flag the first invocation produced, returns exactly the same output (the
algorithm is a pure function of its inputs and its own mutations do not
perturb a repeated pick). Ties on the hit distance are resolved by the
strict comparison t < tmin: a later triangle whose distance equals the
minimum never overwrites the winner, so a triangle no later than the first
tied one wins. -/
theorem mazeCollision_deterministic (ops : GeomOps) (view proj : Mat4) (cw ch : ℚ)
    (L : List RenderItem) (sx sy : ℤ) (p0 : RenderItem) (b0 : Bool) :
    mazeCollision ops view proj cw ch L sx sy
        (mazeCollision ops view proj cw ch L sx sy p0 b0).1
        (mazeCollision ops view proj cw ch L sx sy p0 b0).2 =
      mazeCollision ops view proj cw ch L sx sy p0 b0 ∧
    (∀ (o d : Float3) (ri p : RenderItem) (i j : ℕ) (t : ℚ),
      i < j → j < ri.IndexCount / 3 →
      triHit ops o d ri i = some t → triHit ops o d ri j = some t →
      (∀ k u, k < ri.IndexCount / 3 → triHit ops o d ri k = some u → t ≤ u) →
      ∃ i0, i0 ≤ i ∧ scanItem ops o d ri p = (some t, pickTriangle ri i0 p)) := by
  constructor
  · have hsrc := foldl_picked_source ops (xmMatrixInverse view) L
      (pickInit proj cw ch sx sy p0 b0)
    have hb : sameBase (pickInit proj cw ch sx sy p0 b0).picked
        (pickInit proj cw ch sx sy
          (mazeCollision ops view proj cw ch L sx sy p0 b0).1
          (mazeCollision ops view proj cw ch L sx sy p0 b0).2).picked := by
      rcases hsrc with h | ⟨ri, _, _, i, _, h⟩
      · show sameBase (pickInit proj cw ch sx sy p0 b0).picked
          { (mazeCollision ops view proj cw ch L sx sy p0 b0).1 with
            Visible := false }
        rw [mazeCollision_eq]
        show sameBase (pickInit proj cw ch sx sy p0 b0).picked
          { (pickStateAfter ops view proj cw ch sx sy p0 b0 L).picked with
            Visible := false }
        rw [show (pickStateAfter ops view proj cw ch sx sy p0 b0 L).picked =
          (pickInit proj cw ch sx sy p0 b0).picked from h]
        exact sameBase_refl _
      · show sameBase (pickInit proj cw ch sx sy p0 b0).picked
          { (mazeCollision ops view proj cw ch L sx sy p0 b0).1 with
            Visible := false }
        rw [mazeCollision_eq]
        show sameBase (pickInit proj cw ch sx sy p0 b0).picked
          { (pickStateAfter ops view proj cw ch sx sy p0 b0 L).picked with
            Visible := false }
        rw [show (pickStateAfter ops view proj cw ch sx sy p0 b0 L).picked =
          pickTriangle ri i (pickInit proj cw ch sx sy p0 b0).picked from h]
        exact sameBase_pickTriangle ri i _
    obtain ⟨_, _, _, hp, hs⟩ := foldl_pickStep_pair ops (xmMatrixInverse view) L
      (pickInit proj cw ch sx sy p0 b0)
      (pickInit proj cw ch sx sy
        (mazeCollision ops view proj cw ch L sx sy p0 b0).1
        (mazeCollision ops view proj cw ch L sx sy p0 b0).2) rfl rfl hb
    refine Prod.ext ?_ ?_
    · show (List.foldl (pickStep ops (xmMatrixInverse view))
        (pickInit proj cw ch sx sy
          (mazeCollision ops view proj cw ch L sx sy p0 b0).1
          (mazeCollision ops view proj cw ch L sx sy p0 b0).2) L).picked =
        (mazeCollision ops view proj cw ch L sx sy p0 b0).1
      rcases hp with ⟨h1, h2⟩ | heq
      · rw [h2]
        have hvis : (mazeCollision ops view proj cw ch L sx sy p0 b0).1.Visible
            = false := by
          show (List.foldl (pickStep ops (xmMatrixInverse view))
            (pickInit proj cw ch sx sy p0 b0) L).picked.Visible = false
          rw [h1]
          rfl
        show { (mazeCollision ops view proj cw ch L sx sy p0 b0).1 with
          Visible := false } = (mazeCollision ops view proj cw ch L sx sy p0 b0).1
        exact hide_invisible hvis
      · exact heq.symm
    · show (List.foldl (pickStep ops (xmMatrixInverse view))
        (pickInit proj cw ch sx sy
          (mazeCollision ops view proj cw ch L sx sy p0 b0).1
          (mazeCollision ops view proj cw ch L sx sy p0 b0).2) L).stop =
        (mazeCollision ops view proj cw ch L sx sy p0 b0).2
      rcases hs with ⟨h1, h2⟩ | heq
      · exact h2
      · exact heq.symm
  · intro o d ri p i j t hij hjn hi hj hmin
    rcases scanItem_spec ops o d ri p with ⟨_, hnone⟩ |
        ⟨iw, tw, hinw, hhitw, heqw, hminw, hfirstw⟩
    · rw [hnone i (lt_trans hij hjn)] at hi
      exact absurd hi (by simp)
    · have h1 : tw ≤ t := hminw i t (lt_trans hij hjn) hi
      have h2 : t ≤ tw := hmin iw tw hinw hhitw
      have ht : tw = t := le_antisymm h1 h2
      have hle : iw ≤ i := by
        by_contra hcon
        push_neg at hcon
        have := hfirstw i t hcon hi
        rw [ht] at this
        exact absurd this (lt_irrefl t)
      exact ⟨iw, hle, by rw [heqw, ht]⟩

/-- Witness for C9: a repeated pick on a two-item scene reproduces its own
output, and on an item with two triangles tied at distance 1 the scan ends
on the first one. -/
theorem mazeCollision_deterministic_witness :
    (mazeCollision opsByVertex id4 id4 2 2 [itemA, itemB] 1 1
        (mazeCollision opsByVertex id4 id4 2 2 [itemA, itemB] 1 1 picked0 false).1
        (mazeCollision opsByVertex id4 id4 2 2 [itemA, itemB] 1 1 picked0 false).2 =
      mazeCollision opsByVertex id4 id4 2 2 [itemA, itemB] 1 1 picked0 false) ∧
    (0 : ℕ) < 1 ∧ 1 < itemTie.IndexCount / 3 ∧
    triHit opsByVertex ⟨0, 0, 0⟩ ⟨0, 0, 1⟩ itemTie 0 = some 1 ∧
    triHit opsByVertex ⟨0, 0, 0⟩ ⟨0, 0, 1⟩ itemTie 1 = some 1 ∧
    (∃ i0, i0 ≤ 0 ∧ scanItem opsByVertex ⟨0, 0, 0⟩ ⟨0, 0, 1⟩ itemTie picked0 =
      (some 1, pickTriangle itemTie i0 picked0)) :=
  ⟨(mazeCollision_deterministic opsByVertex id4 id4 2 2 [itemA, itemB] 1 1 picked0
      false).1,
   by norm_num,
   by norm_num [itemTie],
   by norm_num [triHit, triVertex, opsByVertex, itemTie],
   by norm_num [triHit, triVertex, opsByVertex, itemTie],
   (mazeCollision_deterministic opsByVertex id4 id4 2 2 [itemA, itemB] 1 1 picked0
      false).2 ⟨0, 0, 0⟩ ⟨0, 0, 1⟩ itemTie picked0 0 1 1
     (by norm_num) (by norm_num [itemTie])
     (by norm_num [triHit, triVertex, opsByVertex, itemTie])
     (by norm_num [triHit, triVertex, opsByVertex, itemTie])
     (by
       intro k u hk hu
       have hk2 : k = 0 ∨ k = 1 := by
         have : itemTie.IndexCount / 3 = 2 := by norm_num [itemTie]
         omega
       rcases hk2 with hk2 | hk2 <;> subst hk2 <;>
         rw [show triHit opsByVertex ⟨0, 0, 0⟩ ⟨0, 0, 1⟩ itemTie _ = some 1 from
           by norm_num [triHit, triVertex, opsByVertex, itemTie]] at hu <;>
         simp at hu <;> rw [← hu])⟩

/-! ## Claim C10: the highlight item is never a picking candidate

BuildRenderItems (lines 1740-2393) registers hundreds of statically
authored items; every registration allocates a fresh RenderItem with
std::make_unique, pushes the raw pointer into exactly one layer of
mRitemLayer, and moves ownership into mAllRitems. The static transforms
are out-of-scope scene data, so the model abstracts the registration
prefix as an arbitrary list of (layer, payload) registrations, each
receiving a fresh allocation identity, and then performs the tail of the
function (lines 2370-2387) exactly: the picked render item is allocated
fresh, initialized invisible with an empty index range, pushed only into
the Highlight layer, and recorded in mPickedRitem. -/

/-- The render layers of enum class RenderLayer (source lines 72-80). -/
inductive RenderLayer where
  | Opaque
  | Transparent
  | AlphaTested
  | AlphaTestedTreeSprites
  | Highlight
deriving DecidableEq

/-- State of BuildRenderItems: the owning list and the per-layer pointer
lists; nextId models the freshness of each make_unique allocation. -/
structure SceneBuild where
  nextId : ℕ
  mAllRitems : List RenderItem
  layerOpaque : List RenderItem
  layerTransparent : List RenderItem
  layerAlphaTested : List RenderItem
  layerTreeSprites : List RenderItem
  layerHighlight : List RenderItem
deriving DecidableEq

/-- The empty catalog at the start of BuildRenderItems. -/
def emptyScene : SceneBuild := ⟨0, [], [], [], [], [], []⟩

/-- One registration: a fresh allocation holding the payload is pushed
into the requested layer and into mAllRitems (the pattern of CreateItem,
lines 233-248, and of every inline registration of BuildRenderItems). -/
def registerRitem (s : SceneBuild) (l : RenderLayer) (r : RenderItem) : SceneBuild :=
  let fresh := { r with id := s.nextId }
  match l with
  | RenderLayer.Opaque =>
      { s with
        nextId := s.nextId + 1
        mAllRitems := s.mAllRitems ++ [fresh]
        layerOpaque := s.layerOpaque ++ [fresh] }
  | RenderLayer.Transparent =>
      { s with
        nextId := s.nextId + 1
        mAllRitems := s.mAllRitems ++ [fresh]
        layerTransparent := s.layerTransparent ++ [fresh] }
  | RenderLayer.AlphaTested =>
      { s with
        nextId := s.nextId + 1
        mAllRitems := s.mAllRitems ++ [fresh]
        layerAlphaTested := s.layerAlphaTested ++ [fresh] }
  | RenderLayer.AlphaTestedTreeSprites =>
      { s with
        nextId := s.nextId + 1
        mAllRitems := s.mAllRitems ++ [fresh]
        layerTreeSprites := s.layerTreeSprites ++ [fresh] }
  | RenderLayer.Highlight =>
      { s with
        nextId := s.nextId + 1
        mAllRitems := s.mAllRitems ++ [fresh]
        layerHighlight := s.layerHighlight ++ [fresh] }

/-- The tail of BuildRenderItems (lines 2370-2387): the picked render item
is created fresh with identity transforms, invisible, with an empty draw
range, pushed only into the Highlight layer, and returned as the new
pointee of mPickedRitem. -/
def registerPickedRitem (s : SceneBuild) (objCBIndex : ℕ) (geoV : List Float3)
    (geoI : List ℕ) (bounds : BoundingBoxQ) : SceneBuild × RenderItem :=
  let pickedRitem : RenderItem :=
    { id := s.nextId, World := id4, TexTransform := id4,
      NumFramesDirty := gNumFrameResources, ObjCBIndex := objCBIndex,
      geoVertices := geoV, geoIndices := geoI, IndexCount := 0,
      StartIndexLocation := 0, BaseVertexLocation := 0, Bounds := bounds,
      Visible := false }
  ({ s with
      nextId := s.nextId + 1
      mAllRitems := s.mAllRitems ++ [pickedRitem]
      layerHighlight := s.layerHighlight ++ [pickedRitem] }, pickedRitem)

/-- The whole of BuildRenderItems, with the static registrations abstracted
as the list regs. -/
def buildRenderItems (regs : List (RenderLayer × RenderItem)) (objCBIndex : ℕ)
    (geoV : List Float3) (geoI : List ℕ) (bounds : BoundingBoxQ) :
    SceneBuild × RenderItem :=
  registerPickedRitem
    (List.foldl (fun s lr => registerRitem s lr.1 lr.2) emptyScene regs)
    objCBIndex geoV geoI bounds

/-- Every id already registered in a layer is below the allocation
counter. -/
lemma registerRitem_id_bound :
    ∀ (regs : List (RenderLayer × RenderItem)) (s : SceneBuild),
      (∀ r ∈ s.layerOpaque, r.id < s.nextId) →
      ∀ r ∈ (List.foldl (fun s lr => registerRitem s lr.1 lr.2) s regs).layerOpaque,
        r.id < (List.foldl (fun s lr => registerRitem s lr.1 lr.2) s regs).nextId := by
  intro regs
  induction regs with
  | nil => exact fun s h => h
  | cons a regs ih =>
      intro s h
      obtain ⟨l, r0⟩ := a
      rw [List.foldl_cons]
      refine ih (registerRitem s l r0) ?_
      intro r hr
      cases l <;>
        simp only [registerRitem, List.mem_append, List.mem_singleton] at hr ⊢ <;>
        first
        | (rcases hr with hr | hr
           · exact Nat.lt_succ_of_lt (h r hr)
           · rw [hr]; exact Nat.lt_succ_self _)
        | exact Nat.lt_succ_of_lt (h r hr)

/-- Claim C10: the picked render item is registered only in the Highlight
layer and never in the Opaque layer; the picker scans only the Opaque
layer, skips invisible items, and forces the highlight invisible before
scanning - hence whenever a pick happens, its source is an item of the
Opaque layer whose allocation differs from the highlight item, so a pick
can never select the previously highlighted overlay itself. -/
theorem pickedRitem_never_self_pick (regs : List (RenderLayer × RenderItem))
    (objCBIndex : ℕ) (geoV : List Float3) (geoI : List ℕ) (bounds : BoundingBoxQ) :
    ((buildRenderItems regs objCBIndex geoV geoI bounds).2 ∈
      (buildRenderItems regs objCBIndex geoV geoI bounds).1.layerHighlight) ∧
    (∀ r ∈ (buildRenderItems regs objCBIndex geoV geoI bounds).1.layerOpaque,
      r.id ≠ (buildRenderItems regs objCBIndex geoV geoI bounds).2.id) ∧
    (∀ (ops : GeomOps) (view proj : Mat4) (cw ch : ℚ) (sx sy : ℤ)
      (q : RenderItem) (b : Bool),
      q.id = (buildRenderItems regs objCBIndex geoV geoI bounds).2.id →
      (mazeCollision ops view proj cw ch
        (buildRenderItems regs objCBIndex geoV geoI bounds).1.layerOpaque
        sx sy q b).1.Visible = true →
      ∃ ri ∈ (buildRenderItems regs objCBIndex geoV geoI bounds).1.layerOpaque,
        ri.Visible = true ∧ ri.id ≠ q.id ∧ ∃ i, i < ri.IndexCount / 3 ∧
        (mazeCollision ops view proj cw ch
          (buildRenderItems regs objCBIndex geoV geoI bounds).1.layerOpaque
          sx sy q b).1 = pickTriangle ri i { q with Visible := false }) := by
  have hbound := registerRitem_id_bound regs emptyScene (by intro r hr; simp [emptyScene] at hr)
  refine ⟨?_, ?_, ?_⟩
  · simp [buildRenderItems, registerPickedRitem]
  · intro r hr
    have : r.id <
        (List.foldl (fun s lr => registerRitem s lr.1 lr.2) emptyScene regs).nextId :=
      hbound r (by simpa [buildRenderItems, registerPickedRitem] using hr)
    have hpid : (buildRenderItems regs objCBIndex geoV geoI bounds).2.id =
        (List.foldl (fun s lr => registerRitem s lr.1 lr.2) emptyScene regs).nextId :=
      rfl
    omega
  · intro ops view proj cw ch sx sy q b hq hvis
    rcases foldl_picked_source ops (xmMatrixInverse view)
        (buildRenderItems regs objCBIndex geoV geoI bounds).1.layerOpaque
        (pickInit proj cw ch sx sy q b) with hsrc | ⟨ri, hri, hriv, i, hin, hsrc⟩
    · exfalso
      have : (mazeCollision ops view proj cw ch
          (buildRenderItems regs objCBIndex geoV geoI bounds).1.layerOpaque
          sx sy q b).1.Visible = false := by
        show (List.foldl (pickStep ops (xmMatrixInverse view))
          (pickInit proj cw ch sx sy q b)
          (buildRenderItems regs objCBIndex geoV geoI bounds).1.layerOpaque).picked.Visible
          = false
        rw [hsrc]
        rfl
      rw [hvis] at this
      exact Bool.true_eq_false.mp this
    · refine ⟨ri, hri, hriv, ?_, i, hin, hsrc⟩
      intro hcon
      have hbd : ri.id <
          (List.foldl (fun s lr => registerRitem s lr.1 lr.2) emptyScene regs).nextId :=
        hbound ri (by simpa [buildRenderItems, registerPickedRitem] using hri)
      have hpid : (buildRenderItems regs objCBIndex geoV geoI bounds).2.id =
          (List.foldl (fun s lr => registerRitem s lr.1 lr.2) emptyScene regs).nextId :=
        rfl
      rw [hq, hpid] at hcon
      omega

/-- Witness for C10: with one opaque wall registered and the picked item
created last, a pick on the built scene happens and its source is the
wall, whose allocation differs from the highlight item. -/
theorem pickedRitem_never_self_pick_witness :
    (mazeCollision opsByVertex id4 id4 2 2
      (buildRenderItems [(RenderLayer.Opaque, itemA)] 106 [] [] bbox0).1.layerOpaque
      1 1 (buildRenderItems [(RenderLayer.Opaque, itemA)] 106 [] [] bbox0).2
      false).1.Visible = true ∧
    (∃ ri ∈ (buildRenderItems [(RenderLayer.Opaque, itemA)] 106 [] []
        bbox0).1.layerOpaque,
      ri.Visible = true ∧
      ri.id ≠ (buildRenderItems [(RenderLayer.Opaque, itemA)] 106 [] [] bbox0).2.id ∧
      ∃ i, i < ri.IndexCount / 3 ∧
        (mazeCollision opsByVertex id4 id4 2 2
          (buildRenderItems [(RenderLayer.Opaque, itemA)] 106 [] []
            bbox0).1.layerOpaque
          1 1 (buildRenderItems [(RenderLayer.Opaque, itemA)] 106 [] [] bbox0).2
          false).1 =
          pickTriangle ri i
            { (buildRenderItems [(RenderLayer.Opaque, itemA)] 106 [] [] bbox0).2 with
              Visible := false }) :=
  ⟨by norm_num [buildRenderItems, registerRitem, registerPickedRitem, emptyScene,
      mazeCollision, pickStep, pickInit, viewRayOrigin, viewRayDir, itemRayOrigin,
      itemRayDir, toLocalOf, xmMatrixInverse, xmMatrixMultiply,
      xmVector3TransformCoord, xmVector3TransformNormal, scanItem, scanStep,
      triHit, triVertex, pickTriangle, ltInf, leInf, itemVerdict, opsByVertex,
      itemA, id4, bbox0, List.range_succ],
   (pickedRitem_never_self_pick [(RenderLayer.Opaque, itemA)] 106 [] [] bbox0).2.2
     opsByVertex id4 id4 2 2 1 1
     (buildRenderItems [(RenderLayer.Opaque, itemA)] 106 [] [] bbox0).2 false rfl
     (by norm_num [buildRenderItems, registerRitem, registerPickedRitem, emptyScene,
       mazeCollision, pickStep, pickInit, viewRayOrigin, viewRayDir, itemRayOrigin,
       itemRayDir, toLocalOf, xmMatrixInverse, xmMatrixMultiply,
       xmVector3TransformCoord, xmVector3TransformNormal, scanItem, scanStep,
       triHit, triVertex, pickTriangle, ltInf, leInf, itemVerdict, opsByVertex,
       itemA, id4, bbox0, List.range_succ])⟩

/-! ## Claim C4: the frame-resource ring and fence protocol

ShapesApp::Update (lines 313-332) advances mCurrFrameResourceIndex,
blocks while the new slot has a nonzero recorded fence the GPU has not yet
completed, and then performs all constant-buffer and wave-vertex-buffer
writes into that slot; ShapesApp::Draw (lines 404-410) records
++mCurrentFence on the slot and signals it on the queue. The GPU is
modelled by its completed-fence counter, which grows monotonically and
never exceeds the last signaled fence. -/

/-- Ring and fence state: mCurrFrameResourceIndex, the per-slot
FrameResource::Fence values, mCurrentFence, and the GPU completed-fence
counter mFence->GetCompletedValue(). -/
structure RingState where
  curFrameResourceIndex : ℕ
  slotFence : Fin gNumFrameResources → ℕ
  currentFence : ℕ
  gpuCompleted : ℕ

/-- The slot Update moves to: (mCurrFrameResourceIndex + 1) %
gNumFrameResources (line 314). -/
def advanceSlot (s : RingState) : Fin gNumFrameResources :=
  ⟨(s.curFrameResourceIndex + 1) % gNumFrameResources,
   Nat.mod_lt _ (by decide)⟩

/-- Exit condition of the wait at lines 319-325, read at the moment the
frame writes begin with c the observed completed value: either the slot
was never submitted (fence 0) or the GPU has completed up to its fence. -/
def waitExit (s : RingState) (c : ℕ) : Prop :=
  s.slotFence (advanceSlot s) = 0 ∨ s.slotFence (advanceSlot s) ≤ c

/-- GPU progress is monotone and bounded by the last signaled fence. -/
def gpuOk (s : RingState) (c : ℕ) : Prop :=
  s.gpuCompleted ≤ c ∧ c ≤ s.currentFence

/-- One whole CPU frame observed with completed value c: Update advances
the index and (after the wait) writes this frame data into the new slot;
Draw records ++mCurrentFence on that slot (line 405). -/
def cpuFrame (s : RingState) (c : ℕ) : RingState :=
  { curFrameResourceIndex := (s.curFrameResourceIndex + 1) % gNumFrameResources
    slotFence := Function.update s.slotFence (advanceSlot s) (s.currentFence + 1)
    currentFence := s.currentFence + 1
    gpuCompleted := c }

/-- Ring states reachable from startup (index 0, all fences 0, counters 0)
by GPU progress and CPU frames whose wait condition held when the writes
happened. -/
inductive RingReachable : RingState → Prop where
  | init : RingReachable ⟨0, fun _ => 0, 0, 0⟩
  | gpu (s : RingState) (c : ℕ) : RingReachable s → gpuOk s c →
      RingReachable { s with gpuCompleted := c }
  | frame (s : RingState) (c : ℕ) : RingReachable s → gpuOk s c →
      waitExit s c → RingReachable (cpuFrame s c)

/-- In every reachable state, every recorded slot fence is at most the
last issued fence value, and so is the GPU completed counter. -/
lemma ringReachable_fence_bound (s : RingState) (h : RingReachable s) :
    (∀ j, s.slotFence j ≤ s.currentFence) ∧ s.gpuCompleted ≤ s.currentFence := by
  induction h with
  | init => exact ⟨fun j => le_refl 0, le_refl 0⟩
  | gpu s c _ hok ih => exact ⟨ih.1, hok.2⟩
  | frame s c _ hok _ ih =>
      refine ⟨fun j => ?_, ?_⟩
      · show Function.update s.slotFence (advanceSlot s) (s.currentFence + 1) j ≤
          s.currentFence + 1
        by_cases hj : j = advanceSlot s
        · rw [hj, Function.update_same]
        · rw [Function.update_noteq hj]
          exact Nat.le_succ_of_le (ih.1 j)
      · exact Nat.le_succ_of_le hok.2

/-- Claim C4: each frame advances the ring index to (previous + 1) mod 3;
at the moment the frame writes begin, the target slot is reclaimed (its
recorded fence is zero or already completed by the GPU - the wait blocked
otherwise); the frame records fence value mCurrentFence + 1 on its slot,
strictly greater than every fence recorded anywhere in the ring before
it. -/
theorem frameRing_no_unretired_reuse (s : RingState) (hr : RingReachable s)
    (c : ℕ) (hok : gpuOk s c) (hwait : waitExit s c) :
    (cpuFrame s c).curFrameResourceIndex = (s.curFrameResourceIndex + 1) % 3 ∧
    (s.slotFence (advanceSlot s) ≠ 0 → s.slotFence (advanceSlot s) ≤ c) ∧
    (cpuFrame s c).slotFence (advanceSlot s) = s.currentFence + 1 ∧
    (∀ j, s.slotFence j < (cpuFrame s c).slotFence (advanceSlot s)) := by
  refine ⟨rfl, ?_, ?_, ?_⟩
  · intro hne
    rcases hwait with h | h
    · exact absurd h hne
    · exact h
  · show Function.update s.slotFence (advanceSlot s) (s.currentFence + 1)
      (advanceSlot s) = s.currentFence + 1
    rw [Function.update_same]
  · intro j
    show s.slotFence j <
      Function.update s.slotFence (advanceSlot s) (s.currentFence + 1)
        (advanceSlot s)
    rw [Function.update_same]
    exact Nat.lt_succ_of_le ((ringReachable_fence_bound s hr).1 j)

/-- Witness for C4: one frame from the startup state with the GPU idle at
zero; the wait condition holds vacuously and the frame records fence 1. -/
theorem frameRing_no_unretired_reuse_witness :
    RingReachable (⟨0, fun _ => 0, 0, 0⟩ : RingState) ∧
    gpuOk (⟨0, fun _ => 0, 0, 0⟩ : RingState) 0 ∧
    waitExit (⟨0, fun _ => 0, 0, 0⟩ : RingState) 0 ∧
    ((cpuFrame (⟨0, fun _ => 0, 0, 0⟩ : RingState) 0).curFrameResourceIndex
        = (0 + 1) % 3 ∧
      ((⟨0, fun _ => 0, 0, 0⟩ : RingState).slotFence
          (advanceSlot ⟨0, fun _ => 0, 0, 0⟩) ≠ 0 →
        (⟨0, fun _ => 0, 0, 0⟩ : RingState).slotFence
          (advanceSlot ⟨0, fun _ => 0, 0, 0⟩) ≤ 0) ∧
      (cpuFrame (⟨0, fun _ => 0, 0, 0⟩ : RingState) 0).slotFence
          (advanceSlot ⟨0, fun _ => 0, 0, 0⟩) = 0 + 1 ∧
      (∀ j, (⟨0, fun _ => 0, 0, 0⟩ : RingState).slotFence j <
        (cpuFrame (⟨0, fun _ => 0, 0, 0⟩ : RingState) 0).slotFence
          (advanceSlot ⟨0, fun _ => 0, 0, 0⟩))) :=
  ⟨RingReachable.init, ⟨le_refl 0, Nat.zero_le 0⟩, Or.inl rfl,
   frameRing_no_unretired_reuse ⟨0, fun _ => 0, 0, 0⟩ RingReachable.init 0
     ⟨le_refl 0, Nat.zero_le 0⟩ (Or.inl rfl)⟩

/-! ## Claim C5: dirty-counter propagation through the ring

UpdateObjectCBs (lines 532-554) and UpdateMaterialCBs (lines 556-580) run
once per frame on the slot Update just advanced to; for each item or
material with a positive dirty counter they copy the transposed constants
into that slot at the assigned index and decrement the counter. The model
tracks one render item (respectively one material) and the per-slot
constant-buffer cell it writes, together with a write counter per slot so
that exactly-once claims are expressible. -/

/-- Homogeneous 4-vector, modelling XMFLOAT4. -/
structure Float4 where
  x : ℚ
  y : ℚ
  z : ℚ
  w : ℚ
deriving DecidableEq

/-- struct ObjectConstants of FrameResource.h: transposed world and texture
transforms, as written at lines 544-546. -/
structure ObjectConstants where
  World : Mat4
  TexTransform : Mat4
deriving DecidableEq

/-- struct Material (d3dUtil.h) restricted to what UpdateMaterialCBs and
AnimateMaterials read and write. -/
structure Material where
  MatCBIndex : ℕ
  DiffuseAlbedo : Float4
  FresnelR0 : Float3
  Roughness : ℚ
  MatTransform : Mat4
  NumFramesDirty : ℕ
deriving DecidableEq

/-- struct MaterialConstants of FrameResource.h as written at lines
568-572. -/
structure MaterialConstants where
  DiffuseAlbedo : Float4
  FresnelR0 : Float3
  Roughness : ℚ
  MatTransform : Mat4
deriving DecidableEq

/-- One constant-buffer cell of one ring slot, with a ghost write counter
counting CopyData calls into it. -/
structure CBCell (α : Type) where
  contents : Option α
  writes : ℕ

/-- Ring-slot successor, modelling the index advance of Update. -/
def nextSlot (k : Fin gNumFrameResources) : Fin gNumFrameResources :=
  ⟨(k.val + 1) % gNumFrameResources, Nat.mod_lt _ (by decide)⟩

/-- State followed across frames for one render item: the item, the cell
assigned to it in each of the 3 ring slots, and the current slot index. -/
structure ObjectTrack where
  item : RenderItem
  slots : Fin gNumFrameResources → CBCell ObjectConstants
  cur : Fin gNumFrameResources

/-- One frame acting on one render item: Update advances the slot index,
then UpdateObjectCBs (lines 539-552) checks NumFramesDirty > 0 and if so
copies the transposed World and TexTransform into the current slot cell
and decrements the counter. -/
def objectFrame (st : ObjectTrack) : ObjectTrack :=
  let cur := nextSlot st.cur
  if st.item.NumFramesDirty > 0 then
    { item := { st.item with NumFramesDirty := st.item.NumFramesDirty - 1 }
      slots := Function.update st.slots cur
        ⟨some ⟨xmMatrixTranspose st.item.World,
          xmMatrixTranspose st.item.TexTransform⟩, (st.slots cur).writes + 1⟩
      cur := cur }
  else
    { st with cur := cur }

/-- State followed across frames for one material. -/
structure MaterialTrack where
  mat : Material
  slots : Fin gNumFrameResources → CBCell MaterialConstants
  cur : Fin gNumFrameResources

/-- One frame acting on one material: UpdateMaterialCBs (lines 563-578)
checks NumFramesDirty > 0 and if so copies diffuse, fresnel, roughness and
the transposed material transform into the current slot cell and
decrements the counter. -/
def materialFrame (st : MaterialTrack) : MaterialTrack :=
  let cur := nextSlot st.cur
  if st.mat.NumFramesDirty > 0 then
    { mat := { st.mat with NumFramesDirty := st.mat.NumFramesDirty - 1 }
      slots := Function.update st.slots cur
        ⟨some ⟨st.mat.DiffuseAlbedo, st.mat.FresnelR0, st.mat.Roughness,
          xmMatrixTranspose st.mat.MatTransform⟩, (st.slots cur).writes + 1⟩
      cur := cur }
  else
    { st with cur := cur }

/-- The dirty-propagation contract for one render item whose counter was
just set to the full ring depth: the next three frames each write the
(unchanged) mutated constants into the then-current slot exactly once -
every ring slot is hit exactly once - the counter reaches 0 after the
third frame, and a fourth frame neither writes nor decrements. -/
def objectDirtySpec (st : ObjectTrack) : Prop :=
  (objectFrame (objectFrame (objectFrame st))).item.NumFramesDirty = 0 ∧
  (∀ j, ((objectFrame (objectFrame (objectFrame st))).slots j).writes =
    (st.slots j).writes + 1) ∧
  (∀ j, ((objectFrame (objectFrame (objectFrame st))).slots j).contents =
    some ⟨xmMatrixTranspose st.item.World, xmMatrixTranspose st.item.TexTransform⟩) ∧
  (objectFrame (objectFrame (objectFrame (objectFrame st)))).item.NumFramesDirty
    = 0 ∧
  (∀ j, ((objectFrame (objectFrame (objectFrame (objectFrame st)))).slots j).writes
    = ((objectFrame (objectFrame (objectFrame st))).slots j).writes)

/-- The dirty-propagation contract for one material, mirroring
objectDirtySpec with the material constants of lines 568-572. -/
def materialDirtySpec (st : MaterialTrack) : Prop :=
  (materialFrame (materialFrame (materialFrame st))).mat.NumFramesDirty = 0 ∧
  (∀ j, ((materialFrame (materialFrame (materialFrame st))).slots j).writes =
    (st.slots j).writes + 1) ∧
  (∀ j, ((materialFrame (materialFrame (materialFrame st))).slots j).contents =
    some ⟨st.mat.DiffuseAlbedo, st.mat.FresnelR0, st.mat.Roughness,
      xmMatrixTranspose st.mat.MatTransform⟩) ∧
  (materialFrame (materialFrame (materialFrame (materialFrame st)))).mat.NumFramesDirty
    = 0 ∧
  (∀ j, ((materialFrame (materialFrame (materialFrame (materialFrame st)))).slots
      j).writes
    = ((materialFrame (materialFrame (materialFrame st))).slots j).writes)

/-- Claim C5: after a single mutation sets the dirty counter of a render
item (respectively a material) to 3 and absent further mutation, the next
3 updater passes write the mutated constants into the then-current ring
slot exactly once each while the ring visits all 3 slots round-robin, the
counter reaches exactly 0 and stays 0, and every slot observes the update
exactly once. -/
theorem dirty_counter_propagation (sto : ObjectTrack) (stm : MaterialTrack)
    (ho : sto.item.NumFramesDirty = gNumFrameResources)
    (hm : stm.mat.NumFramesDirty = gNumFrameResources) :
    objectDirtySpec sto ∧ materialDirtySpec stm := by
  constructor
  · obtain ⟨item, slots, cur⟩ := sto
    simp only [gNumFrameResources] at ho
    refine ⟨?_, ?_, ?_, ?_, ?_⟩ <;>
      first
      | (intro j
         fin_cases cur <;> fin_cases j <;>
           simp [objectFrame, nextSlot, ho, Function.update_apply, gNumFrameResources])
      | (fin_cases cur <;>
          simp [objectFrame, nextSlot, ho, Function.update_apply, gNumFrameResources])
  · obtain ⟨mat, slots, cur⟩ := stm
    simp only [gNumFrameResources] at hm
    refine ⟨?_, ?_, ?_, ?_, ?_⟩ <;>
      first
      | (intro j
         fin_cases cur <;> fin_cases j <;>
           simp [materialFrame, nextSlot, hm, Function.update_apply, gNumFrameResources])
      | (fin_cases cur <;>
          simp [materialFrame, nextSlot, hm, Function.update_apply, gNumFrameResources])

/-- The water material "eight" of BuildMaterials: MatCBIndex 7, white
diffuse, fresnel 1/100, roughness 1/8, identity transform. -/
def waterMaterial : Material :=
  { MatCBIndex := 7, DiffuseAlbedo := ⟨1, 1, 1, 1⟩,
    FresnelR0 := ⟨1 / 100, 1 / 100, 1 / 100⟩, Roughness := 1 / 8,
    MatTransform := id4, NumFramesDirty := gNumFrameResources }

/-- Witness for C5: a freshly dirtied item and material, empty slots, slot
index 0. -/
theorem dirty_counter_propagation_witness :
    ((⟨{ itemA with NumFramesDirty := gNumFrameResources },
        fun _ => ⟨none, 0⟩, ⟨0, by decide⟩⟩ : ObjectTrack).item.NumFramesDirty
      = gNumFrameResources) ∧
    ((⟨waterMaterial, fun _ => ⟨none, 0⟩, ⟨0, by decide⟩⟩ : MaterialTrack).mat.NumFramesDirty
      = gNumFrameResources) ∧
    (objectDirtySpec
      ⟨{ itemA with NumFramesDirty := gNumFrameResources }, fun _ => ⟨none, 0⟩, ⟨0, by decide⟩⟩ ∧
     materialDirtySpec ⟨waterMaterial, fun _ => ⟨none, 0⟩, ⟨0, by decide⟩⟩) :=
  ⟨rfl, rfl,
   dirty_counter_propagation
     ⟨{ itemA with NumFramesDirty := gNumFrameResources }, fun _ => ⟨none, 0⟩, ⟨0, by decide⟩⟩
     ⟨waterMaterial, fun _ => ⟨none, 0⟩, ⟨0, by decide⟩⟩ rfl rfl⟩

/-! ## Claim C7: AnimateMaterials scrolls and wraps the water UV offsets -/

/-- ShapesApp::AnimateMaterials (lines 506-529): add 0.1 * dt to the water
material entry MatTransform(3,0) and 0.02 * dt to MatTransform(3,1),
subtract 1 from each that has reached or exceeded 1, write the entries
back, and mark the material dirty for the full ring depth. -/
def animateMaterials (dt : ℚ) (waterMat : Material) : Material :=
  let tu := waterMat.MatTransform.m30 + (1 / 10) * dt
  let tv := waterMat.MatTransform.m31 + (1 / 50) * dt
  let tu2 := if tu ≥ 1 then tu - 1 else tu
  let tv2 := if tv ≥ 1 then tv - 1 else tv
  { waterMat with
    MatTransform := { waterMat.MatTransform with
      m30 := tu2
      m31 := tv2 }
    NumFramesDirty := gNumFrameResources }

/-- Claim C7: every AnimateMaterials call adds 0.1 * dt to the u offset and
0.02 * dt to the v offset, subtracts 1 from each component that reaches or
exceeds 1, and sets the material dirty counter to 3; consequently, when
both offsets start in the interval from 0 inclusive to 1 exclusive and
each (nonnegative - GameTimer clamps DeltaTime at 0) increment is below 1,
both offsets stay in that interval: the offsets wrap at 1. -/
theorem animateMaterials_scroll_wrap (dt : ℚ) (m : Material) (hdt : 0 ≤ dt)
    (hu1 : (1 / 10) * dt < 1) (hv1 : (1 / 50) * dt < 1)
    (hu : 0 ≤ m.MatTransform.m30 ∧ m.MatTransform.m30 < 1)
    (hv : 0 ≤ m.MatTransform.m31 ∧ m.MatTransform.m31 < 1) :
    (animateMaterials dt m).MatTransform.m30 =
      (if m.MatTransform.m30 + (1 / 10) * dt ≥ 1 then
        m.MatTransform.m30 + (1 / 10) * dt - 1
      else m.MatTransform.m30 + (1 / 10) * dt) ∧
    (animateMaterials dt m).MatTransform.m31 =
      (if m.MatTransform.m31 + (1 / 50) * dt ≥ 1 then
        m.MatTransform.m31 + (1 / 50) * dt - 1
      else m.MatTransform.m31 + (1 / 50) * dt) ∧
    (animateMaterials dt m).NumFramesDirty = gNumFrameResources ∧
    (0 ≤ (animateMaterials dt m).MatTransform.m30 ∧
      (animateMaterials dt m).MatTransform.m30 < 1) ∧
    (0 ≤ (animateMaterials dt m).MatTransform.m31 ∧
      (animateMaterials dt m).MatTransform.m31 < 1) := by
  have hmul10 : 0 ≤ (1 / 10 : ℚ) * dt := by positivity
  have hmul50 : 0 ≤ (1 / 50 : ℚ) * dt := by positivity
  refine ⟨rfl, rfl, rfl, ?_, ?_⟩
  · show (0 ≤ (if m.MatTransform.m30 + (1 / 10) * dt ≥ 1 then
      m.MatTransform.m30 + (1 / 10) * dt - 1 else m.MatTransform.m30 + (1 / 10) * dt)) ∧
      ((if m.MatTransform.m30 + (1 / 10) * dt ≥ 1 then
        m.MatTransform.m30 + (1 / 10) * dt - 1
      else m.MatTransform.m30 + (1 / 10) * dt) < 1)
    split_ifs with h
    · constructor <;> linarith [hu.1, hu.2]
    · constructor <;> linarith [hu.1]
  · show (0 ≤ (if m.MatTransform.m31 + (1 / 50) * dt ≥ 1 then
      m.MatTransform.m31 + (1 / 50) * dt - 1 else m.MatTransform.m31 + (1 / 50) * dt)) ∧
      ((if m.MatTransform.m31 + (1 / 50) * dt ≥ 1 then
        m.MatTransform.m31 + (1 / 50) * dt - 1
      else m.MatTransform.m31 + (1 / 50) * dt) < 1)
    split_ifs with h
    · constructor <;> linarith [hv.1, hv.2]
    · constructor <;> linarith [hv.1]

/-- Witness for C7: the water material with offsets (19/20, 1/2) and a time
step of 1: the u offset wraps from 19/20 + 1/10 to 1/20, the v offset
moves to 13/25, and the material is marked dirty for the whole ring. -/
theorem animateMaterials_scroll_wrap_witness :
    (0 : ℚ) ≤ 1 ∧ (1 / 10 : ℚ) * 1 < 1 ∧ (1 / 50 : ℚ) * 1 < 1 ∧
    (0 ≤ ({ waterMaterial with
        MatTransform := { waterMaterial.MatTransform with
          m30 := 19 / 20
          m31 := 1 / 2 } } : Material).MatTransform.m30 ∧
      ({ waterMaterial with
        MatTransform := { waterMaterial.MatTransform with
          m30 := 19 / 20
          m31 := 1 / 2 } } : Material).MatTransform.m30 < 1) ∧
    (animateMaterials 1 { waterMaterial with
        MatTransform := { waterMaterial.MatTransform with
          m30 := 19 / 20
          m31 := 1 / 2 } }).MatTransform.m30 = 1 / 20 ∧
    (animateMaterials 1 { waterMaterial with
        MatTransform := { waterMaterial.MatTransform with
          m30 := 19 / 20
          m31 := 1 / 2 } }).MatTransform.m31 = 13 / 25 ∧
    (animateMaterials 1 { waterMaterial with
        MatTransform := { waterMaterial.MatTransform with
          m30 := 19 / 20
          m31 := 1 / 2 } }).NumFramesDirty = gNumFrameResources := by
  have h := animateMaterials_scroll_wrap 1
    { waterMaterial with
      MatTransform := { waterMaterial.MatTransform with
        m30 := 19 / 20
        m31 := 1 / 2 } }
    (by norm_num) (by norm_num) (by norm_num)
    (by constructor <;> norm_num [waterMaterial, id4])
    (by constructor <;> norm_num [waterMaterial, id4])
  refine ⟨by norm_num, by norm_num, by norm_num,
    ⟨by norm_num [waterMaterial, id4], by norm_num [waterMaterial, id4]⟩, ?_, ?_, h.2.2.1⟩
  · rw [h.1]
    norm_num [waterMaterial, id4]
  · rw [h.2.1]
    norm_num [waterMaterial, id4]

/-! ## Claim C8: the random-disturbance policy of UpdateWaves

UpdateWaves (lines 660-677) keeps a static quarter-second accumulator
t_base; when mTimer.TotalTime() - t_base >= 0.25 it advances t_base by
exactly 0.25 and performs one Disturb with row = Rand(4, RowCount()-5),
col = Rand(4, ColumnCount()-5), magnitude = RandF(0.2, 0.5). The Waves
class and MathHelper are common-library code outside src, so their pieces
are modelled from the spec below. -/

/-- Modelled from the spec: MathHelper::Rand(a, b) returns a uniformly
random integer in the closed range a..b; the model takes the raw random
draw as a parameter and reduces it into the range. -/
def mathHelperRand (a b : ℤ) (draw : ℕ) : ℤ :=
  a + (draw : ℤ) % (b - a + 1)

/-- Modelled from the spec: MathHelper::RandF(a, b) returns a uniform
random real in the closed range a..b; the model takes the unit draw u. -/
def mathHelperRandF (a b u : ℚ) : ℚ :=
  a + u * (b - a)

/-- Modelled from the spec: the grid dimensions of the Waves height field
are fixed at construction and exposed by RowCount / ColumnCount. -/
structure WavesModel where
  mNumRows : ℕ
  mNumCols : ℕ
deriving DecidableEq

/-- The wave field of this program: Initialize (line 262) constructs
Waves(128, 128, 1.0, 0.03, 4.0, 0.2). -/
def wavesDemo : WavesModel := ⟨128, 128⟩

/-- Modelled from the spec: the precondition of Waves::Disturb - the
disturbed cell must be at least 1 cell away from every grid edge;
out-of-range coordinates are a fail-fast programming error, never clamped
silently. -/
def disturbPreOK (w : WavesModel) (i j : ℤ) : Prop :=
  1 ≤ i ∧ i ≤ (w.mNumRows : ℤ) - 2 ∧ 1 ≤ j ∧ j ≤ (w.mNumCols : ℤ) - 2

/-- The disturbance half of UpdateWaves (lines 662-674): when a quarter
second of total time has accumulated over t_base, advance t_base by
exactly 0.25 and emit one Disturb call with the sampled row, column and
magnitude; otherwise emit nothing. Returns the emitted calls (at most
one) and the new t_base. -/
def updateWavesDisturb (w : WavesModel) (totalTime t_base : ℚ) (d1 d2 : ℕ)
    (u : ℚ) : List (ℤ × ℤ × ℚ) × ℚ :=
  if totalTime - t_base ≥ 1 / 4 then
    ([(mathHelperRand 4 ((w.mNumRows : ℤ) - 5) d1,
       mathHelperRand 4 ((w.mNumCols : ℤ) - 5) d2,
       mathHelperRandF (1 / 5) (1 / 2) u)], t_base + 1 / 4)
  else ([], t_base)

/-- Counterexample to C8 as stated: t_base is quantized, not reset to the
disturbance time. A call at total time 1 (t_base 0) disturbs and moves
t_base to 1/4; the next call at total time 11/10 disturbs again although
only 1/10 of total time - less than 0.25 - has accumulated since the
previous disturbance. -/
theorem updateWaves_interval_counterexample :
    (updateWavesDisturb wavesDemo 1 0 0 0 0).1.length = 1 ∧
    (updateWavesDisturb wavesDemo 1 0 0 0 0).2 = 1 / 4 ∧
    (updateWavesDisturb wavesDemo (11 / 10) (1 / 4) 0 0 0).1.length = 1 ∧
    ((11 / 10 : ℚ) - 1 < 1 / 4) := by
  refine ⟨?_, ?_, ?_, by norm_num⟩ <;>
    norm_num [updateWavesDisturb, wavesDemo]

/-- Claim C8 amended: UpdateWaves invokes Disturb at most once per call,
and exactly when totalTime - t_base reaches 0.25, where t_base is a
persistent accumulator advanced by exactly 0.25 at each disturbance (so
after a large jump in total time, disturbances can occur on calls closer
together than 0.25 seconds); the sampled row and column lie in 4..123 for
the 128 x 128 grid - strictly interior, at least one cell from every edge,
so the fail-fast branch of Disturb is unreachable from this caller - and
the magnitude lies in the range 0.2..0.5. -/
theorem updateWaves_disturb_spec (totalTime t_base : ℚ) (d1 d2 : ℕ) (u : ℚ)
    (hu1 : 0 ≤ u) (hu2 : u ≤ 1) :
    (updateWavesDisturb wavesDemo totalTime t_base d1 d2 u).1.length ≤ 1 ∧
    ((updateWavesDisturb wavesDemo totalTime t_base d1 d2 u).1 ≠ [] ↔
      totalTime - t_base ≥ 1 / 4) ∧
    ((updateWavesDisturb wavesDemo totalTime t_base d1 d2 u).1 ≠ [] →
      (updateWavesDisturb wavesDemo totalTime t_base d1 d2 u).2 = t_base + 1 / 4) ∧
    (∀ c ∈ (updateWavesDisturb wavesDemo totalTime t_base d1 d2 u).1,
      4 ≤ c.1 ∧ c.1 ≤ 123 ∧ 4 ≤ c.2.1 ∧ c.2.1 ≤ 123 ∧
      (1 / 5 : ℚ) ≤ c.2.2 ∧ c.2.2 ≤ 1 / 2 ∧ disturbPreOK wavesDemo c.1 c.2.1) := by
  unfold updateWavesDisturb
  split_ifs with h
  · refine ⟨by norm_num, ⟨fun _ => h, fun _ => by simp⟩, fun _ => rfl, ?_⟩
    intro c hc
    simp only [List.mem_singleton] at hc
    subst hc
    refine ⟨?_, ?_, ?_, ?_, ?_, ?_, ?_, ?_, ?_, ?_⟩
    · simp only [mathHelperRand, wavesDemo]
      omega
    · simp only [mathHelperRand, wavesDemo]
      omega
    · simp only [mathHelperRand, wavesDemo]
      omega
    · simp only [mathHelperRand, wavesDemo]
      omega
    · simp only [mathHelperRandF]
      nlinarith
    · simp only [mathHelperRandF]
      nlinarith
    · simp only [mathHelperRand, wavesDemo]
      omega
    · simp only [mathHelperRand, wavesDemo]
      omega
    · simp only [mathHelperRand, wavesDemo]
      omega
    · simp only [mathHelperRand, wavesDemo]
      omega
  · refine ⟨by norm_num, ?_, fun hc => absurd rfl hc, ?_⟩
    · constructor
      · intro hc
        exact absurd rfl hc
      · intro hc
        exact absurd hc h
    · intro c hc
      simp at hc

/-- Witness for the amended C8: a call at total time 1 with accumulator 0
and concrete random draws disturbs exactly once, inside the interior of
the 128 x 128 grid, with a magnitude in range. -/
theorem updateWaves_disturb_spec_witness :
    (0 : ℚ) ≤ 1 / 2 ∧ (1 / 2 : ℚ) ≤ 1 ∧
    ((updateWavesDisturb wavesDemo 1 0 7 9 (1 / 2)).1.length ≤ 1 ∧
      ((updateWavesDisturb wavesDemo 1 0 7 9 (1 / 2)).1 ≠ [] ↔
        (1 : ℚ) - 0 ≥ 1 / 4) ∧
      ((updateWavesDisturb wavesDemo 1 0 7 9 (1 / 2)).1 ≠ [] →
        (updateWavesDisturb wavesDemo 1 0 7 9 (1 / 2)).2 = 0 + 1 / 4) ∧
      (∀ c ∈ (updateWavesDisturb wavesDemo 1 0 7 9 (1 / 2)).1,
        4 ≤ c.1 ∧ c.1 ≤ 123 ∧ 4 ≤ c.2.1 ∧ c.2.1 ≤ 123 ∧
        (1 / 5 : ℚ) ≤ c.2.2 ∧ c.2.2 ≤ 1 / 2 ∧ disturbPreOK wavesDemo c.1 c.2.1)) :=
  ⟨by norm_num, by norm_num,
   updateWaves_disturb_spec 1 0 7 9 (1 / 2) (by norm_num) (by norm_num)⟩
